import Mathlib

/-!
Verification development for the Omnichannel-RAG-Chat backend.

The definitions below are a shallow embedding of the Python source under
`src/backend/src`:
  * `ai_core/api/v1/query.py` (`post_query` and its helper closures),
  * `ai_core/services/rag_service.py` (`HybridRetriever.rrf_fuse`,
    `RAGService.answer`),
  * `ai_core/services/document_service.py` (`process_and_store`,
    `process_rows_and_store`, `extract_rows_from_file`, the chunker),
  * `shared/cache/redis.py` (tenant cache keys).

Strings are handled as `List Char`; Python `str.lower` corresponds to
`Char.toLower` on the ASCII inputs used throughout.  Machine floats appear in
the source only as retrieval scores (never inspected by the claims below, so
retrieval results are passed in as an explicit list) and in salary parsing
(modelled for non-negative integer literals; any other numeric shape takes the
same fallback branch an exception takes in the source).
-/

/-- Python exception outcomes that escape the embedded code paths. -/
inductive PyError where
  | typeError
  | stopIteration
  | valueError
  | externalError
  | storageError
deriving DecidableEq, Repr

/-- Python `\s` for the ASCII range (str.isspace on the characters the
repository handles). -/
def pyIsWs (c : Char) : Bool :=
  c == ' ' || c == '\t' || c == '\n' || c == '\x0d' || c == '\x0b' || c == '\x0c'

/-- Python `str.lower` on ASCII text. -/
def lowerChars (cs : List Char) : List Char := cs.map Char.toLower

/-- Python `needle in hay` on strings: substring containment. -/
def containsSub (needle : List Char) : List Char → Bool
  | [] => needle.isEmpty
  | c :: rest => needle.isPrefixOf (c :: rest) || containsSub needle rest

/-- Strip characters satisfying `p` from both ends (Python `str.strip`). -/
def stripBoth (p : Char → Bool) (cs : List Char) : List Char :=
  ((cs.dropWhile p).reverse.dropWhile p).reverse

/-- Python `str.strip()` (whitespace). -/
def pyStrip (cs : List Char) : List Char := stripBoth pyIsWs cs

/-- Replace every maximal whitespace run by one space: `re.sub(r"\s+", " ", s)`. -/
def collapseWsAux : Bool → List Char → List Char
  | _, [] => []
  | inRun, c :: rest =>
    if pyIsWs c then
      if inRun then collapseWsAux true rest else ' ' :: collapseWsAux true rest
    else c :: collapseWsAux false rest

def collapseWs (cs : List Char) : List Char := collapseWsAux false cs

def isLowerAlnum (c : Char) : Bool :=
  ('a' ≤ c && c ≤ 'z') || ('0' ≤ c && c ≤ '9')

/-- Replace every maximal run of `[^a-z0-9]` by `_`: `re.sub(r"[^a-z0-9]+", "_", s)`. -/
def subNonAlnumAux : Bool → List Char → List Char
  | _, [] => []
  | inRun, c :: rest =>
    if isLowerAlnum c then c :: subNonAlnumAux false rest
    else if inRun then subNonAlnumAux true rest
    else '_' :: subNonAlnumAux true rest

def subNonAlnum (cs : List Char) : List Char := subNonAlnumAux false cs

/-- `norm_col` of query.py: strip, lower, drop BOM, collapse non-alnum to `_`,
strip `_`. -/
def norm_col (cs : List Char) : List Char :=
  stripBoth (· == '_') (subNonAlnum ((lowerChars (pyStrip cs)).filter (fun c => c ≠ '﻿')))

def norm_col_str (s : String) : String := ⟨norm_col s.data⟩

/-- `norm_name` of query.py: strip, lower, drop BOM, collapse whitespace runs. -/
def norm_name (cs : List Char) : List Char :=
  collapseWs ((lowerChars (pyStrip cs)).filter (fun c => c ≠ '﻿'))

/-- Split a char list at a separator character (Python `str.split(sep)`). -/
def splitOnChar (sep : Char) : List Char → List (List Char)
  | [] => [[]]
  | c :: rest =>
    if c = sep then [] :: splitOnChar sep rest
    else
      match splitOnChar sep rest with
      | [] => [[c]]
      | g :: gs => (c :: g) :: gs

/-- Python `str.split()` (no argument): split on whitespace runs, no empties. -/
def pySplitWsAux : List Char → List Char → List (List Char)
  | [], acc => if acc.isEmpty then [] else [acc.reverse]
  | c :: rest, acc =>
    if pyIsWs c then
      if acc.isEmpty then pySplitWsAux rest [] else acc.reverse :: pySplitWsAux rest []
    else pySplitWsAux rest (c :: acc)

def pySplitWs (cs : List Char) : List (List Char) := pySplitWsAux cs []

/-- `name_variants` of query.py: the normalized input, plus the
"First Last" swap when the raw input contains a comma.  (The source builds a
set; only membership in it is ever used.) -/
def name_variants (raw : List Char) : List (List Char) :=
  let n := norm_name raw
  if raw.contains ',' then
    let parts := (splitOnChar ',' (raw.filter (fun c => c ≠ '﻿'))).map pyStrip
    match parts with
    | p0 :: p1 :: _ => [n, norm_name (p1 ++ [' '] ++ p0)]
    | _ => [n]
  else [n]

def non_person_keywords : List String :=
  ["chapter", "program", "project", "management", "roles", "responsibilities",
   "governance", "policy", "process", "procedure", "guideline"]

/-- `looks_like_person` of query.py. -/
def looks_like_person (raw : List Char) : Bool :=
  if raw.isEmpty then false
  else
    let s := pyStrip raw
    let sl := lowerChars s
    if non_person_keywords.any (fun k => containsSub k.data sl) then false
    else if s.any (fun c => c.isDigit) then false
    else if s.contains ',' && decide ((splitOnChar ',' s).length ≥ 2) then true
    else
      let tokens := pySplitWs s
      decide (2 ≤ tokens.length) && decide (tokens.length ≤ 4)

def digitsToNat (ds : List Char) : Nat :=
  ds.foldl (fun n c => n * 10 + (c.toNat - 48)) 0

/-- Group the (reversed) digit list by threes with commas, for `f"{x:,.0f}"`. -/
def group3Rev : List Char → Nat → List Char
  | [], _ => []
  | c :: rest, k =>
    if k = 3 then ',' :: c :: group3Rev rest 1 else c :: group3Rev rest (k + 1)

/-- `f"{x:,.0f}"` for a natural number: decimal digits with thousands commas. -/
def groupDigits (n : Nat) : String :=
  ⟨(group3Rev (Nat.repr n).data.reverse 0).reverse⟩

/-- The numeric value of `float(best_value.replace(',', '').replace('$', ''))`
when the cleaned text is a plain digit string (the only shape the repository's
salary data takes); any other shape falls to the source's exception branch,
modelled as `none`. -/
def salary_number (v : String) : Option Nat :=
  let cleaned := v.data.filter (fun c => c ≠ ',' && c ≠ '$')
  if (!cleaned.isEmpty) && cleaned.all (fun c => c.isDigit) then
    some (digitsToNat cleaned)
  else none

-- CSV (Python `csv` module, default dialect) -------------------------------

inductive CsvMode where
  | recordStart
  | fieldStart
  | inField
  | inQuotes
  | afterQuote
deriving DecidableEq

/-- One record of the default-dialect reader: consume characters up to and
including the record terminator; return the record and the rest. -/
def csvRecordAux : CsvMode → List Char → List Char → List String →
    List String × List Char
  | .recordStart, [], _, fields => (fields ++ [""], [])
  | .recordStart, '\n' :: rest, _, _ => ([], rest)
  | .recordStart, '\x0d' :: '\n' :: rest, _, _ => ([], rest)
  | .recordStart, '\x0d' :: rest, _, _ => ([], rest)
  | .recordStart, '"' :: rest, _, fields => csvRecordAux .inQuotes rest [] fields
  | .recordStart, ',' :: rest, _, fields => csvRecordAux .fieldStart rest [] (fields ++ [""])
  | .recordStart, c :: rest, _, fields => csvRecordAux .inField rest [c] fields
  | .fieldStart, [], _, fields => (fields ++ [""], [])
  | .fieldStart, '\n' :: rest, _, fields => (fields ++ [""], rest)
  | .fieldStart, '\x0d' :: '\n' :: rest, _, fields => (fields ++ [""], rest)
  | .fieldStart, '\x0d' :: rest, _, fields => (fields ++ [""], rest)
  | .fieldStart, '"' :: rest, _, fields => csvRecordAux .inQuotes rest [] fields
  | .fieldStart, ',' :: rest, _, fields => csvRecordAux .fieldStart rest [] (fields ++ [""])
  | .fieldStart, c :: rest, _, fields => csvRecordAux .inField rest [c] fields
  | .inField, [], cur, fields => (fields ++ [⟨cur.reverse⟩], [])
  | .inField, '\n' :: rest, cur, fields => (fields ++ [⟨cur.reverse⟩], rest)
  | .inField, '\x0d' :: '\n' :: rest, cur, fields => (fields ++ [⟨cur.reverse⟩], rest)
  | .inField, '\x0d' :: rest, cur, fields => (fields ++ [⟨cur.reverse⟩], rest)
  | .inField, ',' :: rest, cur, fields =>
      csvRecordAux .fieldStart rest [] (fields ++ [⟨cur.reverse⟩])
  | .inField, c :: rest, cur, fields => csvRecordAux .inField rest (c :: cur) fields
  | .inQuotes, [], cur, fields => (fields ++ [⟨cur.reverse⟩], [])
  | .inQuotes, '"' :: '"' :: rest, cur, fields =>
      csvRecordAux .inQuotes rest ('"' :: cur) fields
  | .inQuotes, '"' :: rest, cur, fields => csvRecordAux .afterQuote rest cur fields
  | .inQuotes, c :: rest, cur, fields => csvRecordAux .inQuotes rest (c :: cur) fields
  | .afterQuote, [], cur, fields => (fields ++ [⟨cur.reverse⟩], [])
  | .afterQuote, '\n' :: rest, cur, fields => (fields ++ [⟨cur.reverse⟩], rest)
  | .afterQuote, '\x0d' :: '\n' :: rest, cur, fields => (fields ++ [⟨cur.reverse⟩], rest)
  | .afterQuote, '\x0d' :: rest, cur, fields => (fields ++ [⟨cur.reverse⟩], rest)
  | .afterQuote, ',' :: rest, cur, fields =>
      csvRecordAux .fieldStart rest [] (fields ++ [⟨cur.reverse⟩])
  | .afterQuote, c :: rest, cur, fields => csvRecordAux .afterQuote rest (c :: cur) fields

/-- All records of `csv.reader` over a text (each record consumes at least one
character, so `cs.length` steps of fuel always suffice). -/
def csvRecordsAux : Nat → List Char → List (List String)
  | 0, _ => []
  | _ + 1, [] => []
  | fuel + 1, c :: rest =>
    let (rec1, rest') := csvRecordAux .recordStart (c :: rest) [] []
    rec1 :: csvRecordsAux fuel rest'

def csvRecords (cs : List Char) : List (List String) :=
  csvRecordsAux (cs.length + 1) cs

/-- `parse_csv_row` of query.py: `next(csv.reader(io.StringIO(row_text)))`.
`none` models the uncaught `StopIteration` on text with no record. -/
def parse_csv_row (s : String) : Option (List String) :=
  (csvRecords s.data).head?

/-- Whether `csv.writer` (QUOTE_MINIMAL) must quote a field. -/
def csvNeedsQuote (s : String) : Bool :=
  s.data.any (fun c => c == ',' || c == '"' || c == '\n' || c == '\x0d')

def csvQuoteField (s : String) : String :=
  if csvNeedsQuote s then
    ⟨'"' :: (s.data.foldr (fun c acc => if c = '"' then '"' :: '"' :: acc else c :: acc) ['"'])⟩
  else s

/-- `csv.writer(...).writerow(r)` followed by `.strip('\n')` as
`extract_rows_from_file` performs it: the writer appends `\r\n` and the strip
removes only the `\n`, so the serialized row keeps a trailing `\r`. -/
def csvWriteRow (fields : List String) : String :=
  String.intercalate "," (fields.map csvQuoteField) ++ "\x0d"

/-- `DocumentService.extract_rows_from_file` for a `.csv` upload: parse the
decoded text and re-serialize every record. -/
def extract_rows_from_file (text : String) : List String :=
  (csvRecords text.data).map csvWriteRow

-- Python `str.splitlines` (terminators `\n`, `\r`, `\r\n`) ------------------

def pySplitlinesAux : List Char → List Char → List (List Char)
  | [], acc => if acc.isEmpty then [] else [acc.reverse]
  | '\x0d' :: '\n' :: rest, acc => acc.reverse :: pySplitlinesAux rest []
  | '\x0d' :: rest, acc => acc.reverse :: pySplitlinesAux rest []
  | '\n' :: rest, acc => acc.reverse :: pySplitlinesAux rest []
  | c :: rest, acc => pySplitlinesAux rest (c :: acc)

def pySplitlines (cs : List Char) : List (List Char) := pySplitlinesAux cs []

/-- Python `str.rstrip(chars)`. -/
def pyRstrip (p : Char → Bool) (cs : List Char) : List Char :=
  (cs.reverse.dropWhile p).reverse

-- Regex scanners used by query.py -------------------------------------------

/-- Match a literal (already-lowercased) pattern against lowered text. -/
def matchLit : List Char → List Char → Option (List Char)
  | [], cs => some cs
  | _ :: _, [] => none
  | l :: ls, c :: cs => if c = l then matchLit ls cs else none

/-- Case-insensitive literal match (pattern given lowercase, text raw). -/
def matchLitCI : List Char → List Char → Option (List Char)
  | [], cs => some cs
  | _ :: _, [] => none
  | l :: ls, c :: cs => if c.toLower = l then matchLitCI ls cs else none

/-- `\s+` (greedy; every use site is followed by a non-whitespace token). -/
def matchWs1 (cs : List Char) : Option (List Char) :=
  match cs with
  | c :: _ => if pyIsWs c then some (cs.dropWhile pyIsWs) else none
  | [] => none

/-- `(\d+)` (greedy). -/
def matchDigits1 (cs : List Char) : Option (Nat × List Char) :=
  let ds := cs.takeWhile (fun c => c.isDigit)
  if ds.isEmpty then none else some (digitsToNat ds, cs.drop ds.length)

/-- `\s+([^X]+)` where `X` is the stop class: the greedy whitespace run gives
one character back when the capture would otherwise be empty. -/
def captureAfterWs (stop : Char → Bool) (rest : List Char) : Option (List Char) :=
  let wsRun := rest.takeWhile pyIsWs
  if wsRun.isEmpty then none
  else
    let afterWs := rest.drop wsRun.length
    let cap := afterWs.takeWhile (fun c => !stop c)
    if !cap.isEmpty then some (cap ++ [])
    else if 2 ≤ wsRun.length then some (wsRun.drop (wsRun.length - 1))
    else none

/-- `(?:of|for)` at the current position (case-insensitive, `of` first). -/
def matchOfForAt : List Char → Option (List Char)
  | c1 :: c2 :: rest =>
    if c1.toLower = 'o' && c2.toLower = 'f' then some rest
    else
      match rest with
      | c3 :: rest' =>
        if c1.toLower = 'f' && c2.toLower = 'o' && c3.toLower = 'r' then some rest'
        else none
      | [] => none
  | _ => none

/-- `re.search(r"(?:of|for)\s+([^?]+)", message, re.IGNORECASE)`: the leftmost
match's capture. -/
def scanOfFor : List Char → Option (List Char)
  | [] => none
  | c :: rest =>
    match matchOfForAt (c :: rest) with
    | some after =>
      match captureAfterWs (· == '?') after with
      | some cap => some cap
      | none => scanOfFor rest
    | none => scanOfFor rest

/-- The person slot of query.py: `person_match.group(1).strip()`. -/
def person_candidate (q : String) : Option (List Char) :=
  (scanOfFor q.data).map pyStrip

/-- `re.search(r"next\s+chapter\s+after\s+chapter\s+(\d+)", ql)` at one
position. -/
def tryNextChapterAt (cs : List Char) : Option Nat :=
  (matchLit "next".data cs).bind fun r1 =>
  (matchWs1 r1).bind fun r2 =>
  (matchLit "chapter".data r2).bind fun r3 =>
  (matchWs1 r3).bind fun r4 =>
  (matchLit "after".data r4).bind fun r5 =>
  (matchWs1 r5).bind fun r6 =>
  (matchLit "chapter".data r6).bind fun r7 =>
  (matchWs1 r7).bind fun r8 =>
  (matchDigits1 r8).map (·.1)

def scanNextChapter : List Char → Option Nat
  | [] => none
  | c :: rest =>
    match tryNextChapterAt (c :: rest) with
    | some n => some n
    | none => scanNextChapter rest

/-- `detect_next_chapter_request` of query.py (its argument is the lowered
message). -/
def detect_next_chapter_request (lq : List Char) : Option Nat :=
  scanNextChapter lq

-- Ordered-list request detection (query.py `detect_list_request`) ----------

structure ListReq where
  isNext : Bool
  n : Nat
  topic : Option String
deriving DecidableEq, Repr

def isWordChar (c : Char) : Bool := c.isAlphanum || c == '_'

/-- `(?:of|in)\s+(.+)$` at the current position of a lowered, stripped query
(`.` does not cross a newline; `$` also matches before one final newline). -/
def tryOfInTail (cs : List Char) : Option (List Char) :=
  match (match matchLit "of".data cs with
         | some r => some r
         | none => matchLit "in".data cs) with
  | none => none
  | some after =>
    let wsRun := after.takeWhile pyIsWs
    if wsRun.isEmpty then none
    else
      let afterWs := after.drop wsRun.length
      let cap := afterWs.takeWhile (fun c => c ≠ '\n')
      let tail := afterWs.drop cap.length
      if !cap.isEmpty then
        if tail.isEmpty || tail = ['\n'] then some cap else none
      else if 2 ≤ wsRun.length && (afterWs.isEmpty || afterWs = ['\n']) then
        some (wsRun.drop (wsRun.length - 1))
      else none

/-- The lazy `.*?` before `(?:of|in)`: try the earliest position, never
crossing a newline. -/
def scanLazyOfIn : List Char → Option (List Char)
  | [] => none
  | c :: rest =>
    match tryOfInTail (c :: rest) with
    | some cap => some cap
    | none => if c = '\n' then none else scanLazyOfIn rest

def listTopicClean (cap : List Char) : List Char :=
  pyStrip (pyRstrip (· == '?') (pyStrip cap))

/-- `\b(first|top)\s+(\d+)\b.*?(?:of|in)\s+(.+)$` at one position (the
word boundaries become conditions on the neighbouring characters). -/
def tryFirstAt (prev : Option Char) (cs : List Char) : Option (Nat × List Char) :=
  if (prev.map isWordChar).getD false then none
  else
    (match (match matchLit "first".data cs with
            | some r => some r
            | none => matchLit "top".data cs) with
     | none => none
     | some r1 =>
       (matchWs1 r1).bind fun r2 =>
       (matchDigits1 r2).bind fun p =>
       if (p.2.head?.map isWordChar).getD false then none
       else (scanLazyOfIn p.2).map (fun cap => (p.1, listTopicClean cap)))

/-- `\b(next|subsequent)\s+(\d+)\b(?:.*?(?:of|in)\s+(.+))?` at one position. -/
def tryNextAt (prev : Option Char) (cs : List Char) : Option (Nat × Option (List Char)) :=
  if (prev.map isWordChar).getD false then none
  else
    (match (match matchLit "next".data cs with
            | some r => some r
            | none => matchLit "subsequent".data cs) with
     | none => none
     | some r1 =>
       (matchWs1 r1).bind fun r2 =>
       (matchDigits1 r2).bind fun p =>
       if (p.2.head?.map isWordChar).getD false then none
       else some (p.1, (scanLazyOfIn p.2).map listTopicClean))

def scanFirst : Option Char → List Char → Option (Nat × List Char)
  | prev, [] => tryFirstAt prev []
  | prev, c :: rest =>
    match tryFirstAt prev (c :: rest) with
    | some x => some x
    | none => scanFirst (some c) rest

def scanNext : Option Char → List Char → Option (Nat × Option (List Char))
  | prev, [] => tryNextAt prev []
  | prev, c :: rest =>
    match tryNextAt prev (c :: rest) with
    | some x => some x
    | none => scanNext (some c) rest

/-- `detect_list_request` of query.py (argument: the lowered message; the
source strips it before searching). -/
def detect_list_request (lq : List Char) : Option ListReq :=
  let ql := pyStrip lq
  match scanFirst none ql with
  | some (n, topicCs) => some ⟨false, n, some ⟨topicCs⟩⟩
  | none =>
    match scanNext none ql with
    | some (n, topicOpt) => some ⟨true, n, topicOpt.map (fun cs => (⟨cs⟩ : String))⟩
    | none => none

-- Chapter heading extraction ------------------------------------------------

/-- `^chapter\s+(\d+)\s*[\.:\-]?\s*(.*)$` (IGNORECASE) against a stripped
line; returns the number and the stripped title group. -/
def match_chapter_line (s : List Char) : Option (Nat × List Char) :=
  (matchLitCI "chapter".data s).bind fun r1 =>
  (matchWs1 r1).bind fun r2 =>
  (matchDigits1 r2).map fun p =>
    let r4 := p.2.dropWhile pyIsWs
    let r5 := match r4 with
      | c :: rest => if c = '.' || c = ':' || c = '-' then rest else r4
      | [] => []
    (p.1, pyStrip (r5.dropWhile pyIsWs))

/-- `extract_chapters` of query.py: a first-wins `(num, title)` table over
every line of the given texts, keeping only non-empty titles. -/
def extract_chapters (texts : List String) : List (Nat × String) :=
  texts.foldl (fun acc t =>
    (pySplitlines t.data).foldl (fun acc2 line =>
      let s := pyStrip line
      if s.isEmpty then acc2
      else
        match match_chapter_line s with
        | some (n, title) =>
          if acc2.all (fun p => p.1 ≠ n) && !title.isEmpty then acc2 ++ [(n, ⟨title⟩)]
          else acc2
        | none => acc2) acc) []

/-- `^(?:[-*•]\s+|\d+[\.)]\s+)` and its removal (`extract_ordered_items`). -/
def bullet_strip (s : List Char) : Option (List Char) :=
  match s with
  | [] => none
  | c :: rest =>
    if c = '-' || c = '*' || c = '•' then
      let w := rest.takeWhile pyIsWs
      if w.isEmpty then none else some (rest.drop w.length)
    else if c.isDigit then
      let ds := (c :: rest).takeWhile (fun x => x.isDigit)
      match (c :: rest).drop ds.length with
      | p :: r2 =>
        if p = '.' || p = ')' then
          let w := r2.takeWhile pyIsWs
          if w.isEmpty then none else some (r2.drop w.length)
        else none
      | [] => none
    else none

/-- `extract_ordered_items` of query.py: bullet/numbered lines of the given
texts, deduplicated preserving order. -/
def extract_ordered_items (texts : List String) : List String :=
  texts.foldl (fun acc t =>
    (pySplitlines t.data).foldl (fun acc2 line =>
      let s := pyStrip line
      if s.isEmpty then acc2
      else
        match bullet_strip s with
        | some restCs =>
          let item := pyStrip restCs
          if !item.isEmpty && acc2.all (fun x => x ≠ (⟨item⟩ : String)) then acc2 ++ [⟨item⟩]
          else acc2
        | none => acc2) acc) []

-- Field keyword tables (query.py) -------------------------------------------

def field_keyword_map : List (String × List String) :=
  [("salary", ["salary", "annualsalary", "salaryamount", "pay", "compensation", "wage", "earning"]),
   ("department", ["department", "dept", "division", "team", "unit"]),
   ("manager", ["manager", "managername", "supervisor", "boss", "reports to", "reporting manager"]),
   ("employmentstatus", ["employmentstatus", "status", "employment status", "work status"]),
   ("position", ["position", "title", "job title", "role", "designation"]),
   ("location", ["location", "office", "site", "workplace", "based in"])]

/-- `detect_requested_field` of query.py: first key whose term list hits the
lowered query. -/
def detect_requested_field (lq : List Char) : Option String :=
  (field_keyword_map.find? (fun p => p.2.any (fun t => containsSub t.data lq))).map (·.1)

def field_aliases : List (String × List String) :=
  [("salary", ["salary", "annualsalary", "salaryamount", "pay", "basepay", "base_salary", "compensation", "wage", "earning"]),
   ("department", ["department", "dept", "division", "team", "unit"]),
   ("manager", ["manager", "managername", "supervisor", "boss", "reporting_manager"]),
   ("employmentstatus", ["employmentstatus", "status", "employment_status", "work_status"]),
   ("position", ["position", "title", "job_title", "role", "designation", "jobtitle"]),
   ("location", ["location", "office", "site", "workplace", "state", "city"])]

def aliases_for (fld : String) : List String :=
  ((field_aliases.find? (fun p => p.1 == fld)).map (·.2)).getD [fld]

def sensitive_terms : List String :=
  ["ethnic", "ethnicity", "race", "hispanic", "religion", "sexual orientation"]

/-- The sensitive-attribute guard of `post_query`. -/
def sensitive_hit (q : String) : Bool :=
  sensitive_terms.any (fun t => containsSub t.data (lowerChars q.data))

def pronoun_terms : List String := ["his", "her", "their", "him", "them"]

-- Chunker (document_service.py) ---------------------------------------------

/-- The split step of `_split_sentences`:
`re.split(r"(?<=[\.!?])\s+(?=[A-Z(\[])", text)` on whitespace-collapsed text
(after the collapse every whitespace run is a single space). -/
def sentSplitAux : List Char → List Char → List (List Char)
  | [], acc => [acc.reverse]
  | c :: rest, acc =>
    if pyIsWs c then
      match acc with
      | p :: _ =>
        if (p = '.' || p = '!' || p = '?') &&
            (rest.head?.map (fun nc => nc.isUpper || nc = '(' || nc = '[')).getD false then
          acc.reverse :: sentSplitAux rest []
        else sentSplitAux rest (c :: acc)
      | [] => sentSplitAux rest (c :: acc)
    else sentSplitAux rest (c :: acc)

/-- `DocumentService._split_sentences`. -/
def split_sentences_ds (text : List Char) : List (List Char) :=
  ((sentSplitAux (collapseWs text) []).map pyStrip).filter (fun s => decide (3 ≤ s.length))

/-- A `[[PAGE:n]]` marker at the current position. -/
def pageMarkerAt (cs : List Char) : Option (Nat × List Char) :=
  (matchLit "[[PAGE:".data cs).bind fun r1 =>
  (matchDigits1 r1).bind fun p =>
  (matchLit "]]".data p.2).map fun r2 => (p.1, r2)

def hasPageMarker : List Char → Bool
  | [] => false
  | c :: rest => (pageMarkerAt (c :: rest)).isSome || hasPageMarker rest

/-- Page segmentation of `_build_chunks_with_metadata` (fuel: one character is
always consumed per step, so `length + 1` suffices). -/
def splitPagesAux : Nat → List Char → List Char → Nat → List (Nat × List Char)
  | 0, _, _, _ => []
  | _ + 1, [], acc, cur =>
    if (pyStrip acc.reverse).isEmpty then [] else [(cur, acc.reverse)]
  | fuel + 1, c :: rest, acc, cur =>
    match pageMarkerAt (c :: rest) with
    | some (pg, after) =>
      (if (pyStrip acc.reverse).isEmpty then [] else [(cur, acc.reverse)]) ++
        splitPagesAux fuel after [] pg
    | none => splitPagesAux fuel rest (c :: acc) cur

def build_pages (text : List Char) : List (Option Nat × List Char) :=
  if hasPageMarker text then
    (splitPagesAux (text.length + 1) text [] 1).map (fun p => (some p.1, p.2))
  else [(none, text)]

/-- Chapter heading in the first six lines of a page. -/
def page_chapter (ptext : List Char) : Option (Nat × List Char) :=
  ((pySplitlines ptext).take 6).findSome? (fun line => match_chapter_line (pyStrip line))

def joinSp : List (List Char) → List Char
  | [] => []
  | x :: rest => rest.foldl (fun acc y => acc ++ ' ' :: y) x

/-- Greedy sentence accumulation with a two-sentence overlap
(`target_chars = 1400`, `overlap_sentences = 2`, the call-site defaults). -/
def buildPageChunksAux (allS : List (List Char)) : List (List Char) → Nat → List (List Char) →
    List (List Char)
  | [], _, buf => if buf.isEmpty then [] else [pyStrip (joinSp buf)]
  | s :: rest, i, buf =>
    if buf.isEmpty then buildPageChunksAux allS rest (i + 1) [s]
    else
      let prospective := pyStrip (joinSp buf ++ ' ' :: s)
      if prospective.length ≤ 1400 then buildPageChunksAux allS rest (i + 1) (buf ++ [s])
      else
        pyStrip (joinSp buf) ::
          buildPageChunksAux allS rest (i + 1) (((allS.drop (i - 2)).take (i - (i - 2))) ++ [s])

structure ChunkMeta where
  page : Option Nat
  chapter_num : Option Nat
  chapter_title : Option String
deriving DecidableEq, Repr

/-- `_build_chunks_with_metadata`: walk the pages carrying the current chapter
state. -/
def buildPagesChunks : List (Option Nat × List Char) → Option Nat → List Char →
    List (List Char × ChunkMeta)
  | [], _, _ => []
  | (pg, ptext) :: rest, curN, curT =>
    let st := match page_chapter ptext with
      | some (n, t) => (some n, t)
      | none => (curN, curT)
    let sentences := split_sentences_ds ptext
    let texts := buildPageChunksAux sentences sentences 0 []
    let meta : ChunkMeta := ⟨pg, st.1, if st.2.isEmpty then none else some ⟨st.2⟩⟩
    texts.map (fun t => (t, meta)) ++ buildPagesChunks rest st.1 st.2

def build_chunks_with_metadata (text : List Char) : List (List Char × ChunkMeta) :=
  buildPagesChunks (build_pages text) none []

def build_chunk_texts (content : String) : List String :=
  (build_chunks_with_metadata content.data).map (fun p => (⟨p.1⟩ : String))

-- Ingest persistence model (document_service.py) -----------------------------

/-- One persisted document row: status, finalized chunk count and the
normalized header columns of a tabular ingest. -/
structure DocRec where
  status : String
  chunk_count : Nat
  columns : Option (List String)
deriving DecidableEq, Repr

/-- Committed relational state: document rows and `(document index, content)`
chunk rows.  Each commit of the source is one transition of this state;
`rollback` discards only what the open transaction added. -/
structure IngestDB where
  docs : List DocRec
  chunks : List (Nat × String)
deriving DecidableEq, Repr

/-- `DocumentService.process_and_store`.  The document row is committed first
(status PROCESSING) to obtain its id; chunk inserts and the INDEXED/chunk_count
finalization are committed together afterwards.  `embedOk` is the embedding
call, `commitOk` the final commit; a `false` models the step raising.  On any
raise the source rolls back the open transaction and re-raises. -/
def process_and_store_db (db : IngestDB) (content : String) (embedOk commitOk : Bool) :
    IngestDB × Except PyError (Nat × Nat) :=
  let dIdx := db.docs.length
  let db1 : IngestDB := ⟨db.docs ++ [⟨"PROCESSING", 0, none⟩], db.chunks⟩
  let texts := build_chunk_texts content
  if texts.isEmpty then (db1, .error .valueError)
  else if !embedOk then (db1, .error .externalError)
  else if !commitOk then (db1, .error .storageError)
  else
    (⟨db.docs ++ [⟨"INDEXED", texts.length, none⟩], db.chunks ++ texts.map (fun t => (dIdx, t))⟩,
     .ok (dIdx, texts.length))

def rows_columns (rows : List String) : Option (List String) :=
  (parse_csv_row (rows.headD "")).map
    (fun h => h.map (fun s => (⟨lowerChars (pyStrip s.data)⟩ : String)))

/-- The data rows stored as chunks: all rows minus the header when the first
row parses. -/
def rows_data (rows : List String) : List String :=
  match parse_csv_row (rows.headD "") with
  | some _ => rows.tail
  | none => rows

/-- `DocumentService.process_rows_and_store`: the first row that parses becomes
the header (captured, lowercased and stripped, as `doc.meta["columns"]`) and is
excluded from the stored chunks; the returned count is `len(rows)`. -/
def process_rows_and_store_db (db : IngestDB) (rows : List String) (embedOk commitOk : Bool) :
    IngestDB × Except PyError (Nat × Nat) :=
  if rows.isEmpty then (db, .error .valueError)
  else
    let columns := rows_columns rows
    let data_rows := rows_data rows
    if data_rows.isEmpty then (db, .error .valueError)
    else
      let dIdx := db.docs.length
      let db1 : IngestDB := ⟨db.docs ++ [⟨"PROCESSING", 0, columns⟩], db.chunks⟩
      if !embedOk then (db1, .error .externalError)
      else if !commitOk then (db1, .error .storageError)
      else
        (⟨db.docs ++ [⟨"INDEXED", data_rows.length, columns⟩],
          db.chunks ++ data_rows.map (fun t => (dIdx, t))⟩,
         .ok (dIdx, rows.length))

/-- The tenant corpus `post_query` loads: chunk contents joined with their
document's `columns` metadata, most recent first. -/
def corpus_of_db (db : IngestDB) : List (String × Option (List String)) :=
  (db.chunks.map (fun p => (p.2, (db.docs.get? p.1).bind (fun d => d.columns)))).reverse

-- Query endpoint model (query.py post_query) ---------------------------------

structure Citation where
  source : String
  title : String
  relevance : ℚ
  snippet : String
deriving DecidableEq, Repr

structure QueryResponse where
  response : String
  citations : List Citation
  confidence : ℚ
  requiresHuman : Bool
deriving DecidableEq, Repr

/-- The conversation's mutable context keys that `post_query` reads or
writes.  An absent `Option` is an absent key (or one of the wrong runtime
type, which the source treats the same way). -/
structure ConvoCtx where
  last_person : Option String
  last_list_topic : Option String
  last_list_items : Option (List String)
  last_list_index : Option Int
  last_chapter : Option Nat
  last_chapter_title : Option String
deriving DecidableEq, Repr

def emptyCtx : ConvoCtx := ⟨none, none, none, none, none, none⟩

/-- What one `post_query` call returns and persists: the HTTP payload, the
messages appended to the conversation (in order), the context after the call,
and whether a conversation was acquired or created at all. -/
structure Outcome where
  resp : QueryResponse
  messages : List (String × String)
  ctxAfter : ConvoCtx
  convCreated : Bool
deriving DecidableEq, Repr

def refusal_response : QueryResponse :=
  ⟨"I can’t determine or infer a person’s protected characteristics. Please consult appropriate, consented records or escalate to a human agent.",
   [], 0, true⟩

def no_knowledge_response : QueryResponse :=
  ⟨"No tenant knowledge available yet to answer this question. Please upload documents or escalate to a human agent.",
   [], 0, true⟩

def no_person_response : QueryResponse :=
  ⟨"Who are you asking about? Please include the person’s name (e.g., ‘What is the position of Jane Doe?’).",
   [], 0, false⟩

def no_topic_response : QueryResponse :=
  ⟨"Which topic are you referring to? For example: ‘first 3 processes of project management’.",
   [], 0, false⟩

/-- `requested.replace('_', ' ').title().lower()`. -/
def field_display_lower (fld : String) : String :=
  ⟨fld.data.map (fun c => if c = '_' then ' ' else c.toLower)⟩

/-- The field-specific response formatting of the tabular branch. -/
def format_field_response (fld displayName value : String) : String :=
  if fld == "salary" then
    match salary_number value with
    | some num => "The salary of " ++ displayName ++ " is $" ++ groupDigits num ++ "."
    | none => "The salary of " ++ displayName ++ " is " ++ value ++ "."
  else if fld == "department" then
    "The department of " ++ displayName ++ " is " ++ value ++ "."
  else if fld == "manager" then
    "The manager of " ++ displayName ++ " is " ++ value ++ "."
  else if fld == "employmentstatus" then
    "The employment status of " ++ displayName ++ " is " ++ value ++ "."
  else if fld == "position" then
    displayName ++ " works as a " ++ value ++ "."
  else if fld == "location" then
    displayName ++ " is located in " ++ value ++ "."
  else
    "The " ++ field_display_lower fld ++ " of " ++ displayName ++ " is " ++ value ++ "."

/-- `{cols[j]: values[j] if j < len(values) else '' for j in range(len(cols))}`
as an association list; a repeated column behaves like the dict (last wins,
see `dict_lookup`). -/
def row_pairs (cols : List String) (values : List String) : List (String × String) :=
  cols.enum.map (fun p => (p.2, values.getD p.1 ""))

def dict_lookup (pairs : List (String × String)) (k : String) : Option String :=
  (pairs.reverse.find? (fun p => p.1 == k)).map (·.2)

def name_cols : List String :=
  ["employee_name", "name", "employee", "empname", "full_name", "employee_full_name"]

/-- The row's name: the first name column that is present and non-blank,
normalized. -/
def row_name_of (pairs : List (String × String)) : Option (List Char) :=
  name_cols.findSome? (fun nc =>
    match dict_lookup pairs nc with
    | some v => if (pyStrip v.data).isEmpty then none else some (norm_name v.data)
    | none => none)

def row_matches (pairs : List (String × String)) (values : List String)
    (variants : List (List Char)) : Bool :=
  (match row_name_of pairs with
   | some rn => variants.any (fun v => rn = norm_name v)
   | none => false) ||
  values.any (fun v => variants.any (fun w => norm_name v.data = norm_name w))

/-- The first matching pass of the tabular branch over the corpus rows paired
with their (already normalized) column metadata.  A row text on which
`parse_csv_row` yields no record raises `StopIteration` in the source. -/
def find_matching_rows_aux (variants : List (List Char)) :
    List (String × Option (List String)) →
    Except PyError (List (String × List (String × String)))
  | [] => .ok []
  | (content, ocols) :: rest =>
    match ocols with
    | none => find_matching_rows_aux variants rest
    | some cols =>
      if cols.isEmpty then find_matching_rows_aux variants rest
      else
        match parse_csv_row content with
        | none => .error .stopIteration
        | some values =>
          let pairs := row_pairs cols values
          match find_matching_rows_aux variants rest with
          | .error e => .error e
          | .ok ms =>
            .ok (if row_matches pairs values variants then (content, pairs) :: ms else ms)

def find_matching_rows (corpus : List String) (cols : List (Option (List String)))
    (variants : List (List Char)) :
    Except PyError (List (String × List (String × String))) :=
  find_matching_rows_aux variants (corpus.zip cols)

/-- The requested field's value in one matched row: first alias present with a
non-blank value, stripped. -/
def row_field_value (fldAliases : List String) (pairs : List (String × String)) :
    Option String :=
  fldAliases.findSome? (fun key =>
    match dict_lookup pairs (norm_col_str key) with
    | some v => if (pyStrip v.data).isEmpty then none else some (⟨pyStrip v.data⟩ : String)
    | none => none)

/-- `canonical_name_for_memory`: the last name column present with a non-blank
value (the source loop has no break). -/
def canonical_name_of (pairs : List (String × String)) : Option String :=
  name_cols.foldl (fun acc nc =>
    match dict_lookup pairs nc with
    | some v => if (pyStrip v.data).isEmpty then acc else some (⟨pyStrip v.data⟩ : String)
    | none => acc) none

/-- The second pass: the first matching row whose alias lookup succeeds wins
(`score` is always 1.0, so later rows never beat the first). -/
def extract_best (fld : String) (ms : List (String × List (String × String))) :
    Option (String × String × Option String) :=
  ms.findSome? (fun m =>
    (row_field_value (aliases_for fld) m.2).map (fun v => (v, m.1, canonical_name_of m.2)))

/-- `person_name_raw.strip().strip('?')`. -/
def person_name_clean (c : List Char) : List Char :=
  stripBoth (· == '?') (pyStrip c)

/-- The schema-aware tabular branch of `post_query` (`requested` detected).
`genericNp` stands for the `rag_service.answer` result of the non-person path;
that call's inputs (the retrieved candidates) do not reach any other branch. -/
def tabular_branch (q : String) (fld : String) (corpus : List String)
    (cols : List (Option (List String))) (ctx : ConvoCtx) (genericNp : QueryResponse) :
    Except PyError Outcome :=
  let lq := lowerChars q.data
  let cand := person_candidate q
  let candOk := match cand with
    | some c => !c.isEmpty
    | none => false
  let pronounRef := pronoun_terms.any (fun p => containsSub p.data lq)
  if (pronounRef && ctx.last_person.isSome) || (candOk && looks_like_person (cand.getD [])) then
    match (if candOk then cand else ctx.last_person.map (·.data)) with
    | none =>
      .ok ⟨no_person_response, [("USER", q), ("SYSTEM", no_person_response.response)], ctx, true⟩
    | some rs =>
      if rs.isEmpty then
        .ok ⟨no_person_response, [("USER", q), ("SYSTEM", no_person_response.response)], ctx, true⟩
      else
        let nm : String := ⟨person_name_clean rs⟩
        match find_matching_rows corpus cols (name_variants nm.data) with
        | .error e => .error e
        | .ok [] =>
          let resp : QueryResponse :=
            ⟨"I couldn't find any records for " ++ nm ++ ". Please verify the name spelling or check if this person exists in the employee database.",
             [], 0, true⟩
          .ok ⟨resp, [("USER", q), ("SYSTEM", resp.response)], ctx, true⟩
        | .ok (m :: ms) =>
          match extract_best fld (m :: ms) with
          | some (v, rowText, canonical) =>
            let displayName := canonical.getD nm
            let respText := format_field_response fld displayName v
            let resp : QueryResponse :=
              ⟨respText, [⟨"row", "Matched record", 99/100, ⟨rowText.data.take 160⟩⟩], 9/10, false⟩
            .ok ⟨resp, [("USER", q), ("SYSTEM", respText)],
                 {ctx with last_person := some displayName}, true⟩
          | none =>
            let resp : QueryResponse :=
              ⟨"I found " ++ nm ++ " in the database, but their " ++ field_display_lower fld ++ " information is not available or empty in the records.",
               [], 0, true⟩
            .ok ⟨resp, [("USER", q), ("SYSTEM", resp.response)], ctx, true⟩
  else .ok ⟨genericNp, [("USER", q), ("SYSTEM", genericNp.response)], ctx, true⟩

/-- The chapter-navigation branch.  `top_texts = [corpus[i] for i in
candidates[:8]]` indexes the corpus list with the retrieved chunk *strings*
(`HybridRetriever.retrieve` returns contents, not indices), which raises
`TypeError` whenever `candidates` is non-empty; only with an empty candidate
list does the source reach the full-corpus extraction. -/
def chapter_branch (q : String) (base : Nat) (candidates corpus : List String)
    (ctx : ConvoCtx) : Except PyError Outcome :=
  if candidates.isEmpty then
    let chapters := extract_chapters corpus
    match (chapters.find? (fun p => p.1 = base + 1)).map (·.2) with
    | some title =>
      let respText := "The next chapter is Chapter " ++ toString (base + 1) ++ ": " ++ title ++ "."
      let resp : QueryResponse := ⟨respText, [], 9/10, false⟩
      .ok ⟨resp, [("USER", q), ("SYSTEM", respText)],
           {ctx with last_chapter := some (base + 1), last_chapter_title := some title}, true⟩
    | none =>
      let resp : QueryResponse :=
        ⟨"I couldn’t find the next chapter title in the uploaded content.", [], 0, true⟩
      .ok ⟨resp, [("USER", q), ("SYSTEM", resp.response)], ctx, true⟩
  else .error .typeError

/-- The ordered-list branch.  As in `chapter_branch`, `top_texts` indexes the
corpus with the retrieved strings, so a non-empty candidate list raises
`TypeError` before any list is extracted. -/
def list_branch (q : String) (req : ListReq) (candidates : List String) (ctx : ConvoCtx) :
    Except PyError Outcome :=
  let t0 : Option String :=
    match req.topic with
    | some t => if !t.isEmpty then some t else ctx.last_list_topic
    | none => ctx.last_list_topic
  match t0 with
  | none => .ok ⟨no_topic_response, [("USER", q), ("SYSTEM", no_topic_response.response)], ctx, true⟩
  | some topic =>
    if topic.isEmpty then
      .ok ⟨no_topic_response, [("USER", q), ("SYSTEM", no_topic_response.response)], ctx, true⟩
    else if !candidates.isEmpty then .error .typeError
    else
      let items0 := extract_ordered_items []
      let items :=
        if ctx.last_list_topic == some topic then
          match ctx.last_list_items with
          | some prev =>
            let prevF := prev.filter (fun it => !it.isEmpty)
            if prevF.length > items0.length then prevF else items0
          | none => items0
        else items0
      if items.isEmpty then
        let resp : QueryResponse :=
          ⟨"I couldn’t find an ordered list of items for " ++ topic ++ ".", [], 0, true⟩
        .ok ⟨resp, [("USER", q), ("SYSTEM", resp.response)], ctx, true⟩
      else
        let n := max 1 req.n
        let start : Nat :=
          if req.isNext then
            if ctx.last_list_topic == some topic then
              match ctx.last_list_index with
              | some i => (max 0 i).toNat
              | none => 0
            else 0
          else 0
        let endIdx := min items.length (start + n)
        let slice := (items.drop start).take (endIdx - start)
        let numbered := slice.enum.map (fun p => toString (start + p.1 + 1) ++ ". " ++ p.2)
        let respText := "Here are the " ++ (if req.isNext then "next" else "first") ++ " " ++
          toString slice.length ++ " items for " ++ topic ++ ":\n" ++
          String.intercalate "\n" numbered
        let resp : QueryResponse := ⟨respText, [], 4/5, false⟩
        .ok ⟨resp, [("USER", q), ("SYSTEM", respText)],
             {ctx with last_list_topic := some topic, last_list_items := some items,
                       last_list_index := some (endIdx : Int)}, true⟩

/-- `post_query` of query.py over a tenant snapshot.  `candidates` is the
value of `rag_service.retriever.retrieve(message, top_k=10)` (whose float
scoring the claims never inspect; it is non-empty whenever the corpus is);
`genericNp` and `generic` are the `rag_service.answer` results of the two
generic fallback calls.  The identifier validation that precedes the guard in
the source (HTTP 400 on malformed UUIDs) is outside this model: the model
covers requests that reach the guard. -/
def post_query (q : String) (candidates corpus : List String)
    (corpusCols : List (Option (List String))) (ctx : ConvoCtx)
    (genericNp generic : QueryResponse) : Except PyError Outcome :=
  if sensitive_hit q then .ok ⟨refusal_response, [], ctx, false⟩
  else
    let lq := lowerChars q.data
    let cols := corpusCols.map (Option.map (List.map norm_col_str))
    if corpus.isEmpty then
      .ok ⟨no_knowledge_response,
           [("USER", q), ("SYSTEM", no_knowledge_response.response)], ctx, true⟩
    else
      match detect_next_chapter_request lq with
      | some base => chapter_branch q base candidates corpus ctx
      | none =>
        match detect_list_request lq with
        | some req => list_branch q req candidates ctx
        | none =>
          match detect_requested_field lq with
          | some fld => tabular_branch q fld corpus cols ctx genericNp
          | none => .ok ⟨generic, [("USER", q), ("SYSTEM", generic.response)], ctx, true⟩

-- Concrete scenario inputs from the spec ------------------------------------

def dummy_response : QueryResponse := ⟨"", [], 0, false⟩

def c1_csv : String :=
  "Employee_Name,Department,Salary,Manager,Status\n\"Akinkuolie, Sarah\",Engineering,95000,John Smith,Active"

def c1_db : IngestDB :=
  (process_rows_and_store_db ⟨[], []⟩ (extract_rows_from_file c1_csv) true true).1

def c1_corpus : List String := (corpus_of_db c1_db).map (·.1)

def c1_cols : List (Option (List String)) := (corpus_of_db c1_db).map (·.2)

def c1_query : String := "What is the salary of Akinkuolie, Sarah?"

def c1_expected_resp : QueryResponse :=
  ⟨"The salary of Akinkuolie, Sarah is $95,000.",
   [⟨"row", "Matched record", 99/100,
     "\"Akinkuolie, Sarah\",Engineering,95000,John Smith,Active\x0d"⟩],
   9/10, false⟩

def c2_doc : String := "Chapter 1. Intro\nChapter 2. Setup\nChapter 3. Usage"

def c2_db : IngestDB := (process_and_store_db ⟨[], []⟩ c2_doc true true).1

def c2_corpus : List String := (corpus_of_db c2_db).map (·.1)

def c2_cols : List (Option (List String)) := (corpus_of_db c2_db).map (·.2)

def c2_query : String := "next chapter after chapter 2"

def c7_query : String := "What is the salary of Jones, Pat?"

def c8_doc : String := "- Initiating\n- Planning\n- Executing\n- Monitoring\n- Closing"

def c8_db : IngestDB := (process_and_store_db ⟨[], []⟩ c8_doc true true).1

def c8_corpus : List String := (corpus_of_db c8_db).map (·.1)

def c8_cols : List (Option (List String)) := (corpus_of_db c8_db).map (·.2)

def c8_query : String := "first 3 processes of project management"

def c6_query : String := "What is the ethnicity of Akinkuolie, Sarah?"

def c4_query : String :=
  "What is the policy on currency conversion of the unwithdrawn loan amount?"

def c4_ctxs : List String :=
  ["The unwithdrawn loan amount may be converted to an approved currency."]

-- RAGService.answer (rag_service.py), no-generator configuration -------------

/-- `re.split(r"(?<=[\.!?])\s+|\n+|;\s+", text)` (the `split_sentences` local
of `RAGService.answer`); fuel: at least one character is consumed per step. -/
def ragSplitGo : Nat → List Char → Option Char → List Char → List (List Char)
  | 0, _, _, acc => [acc.reverse]
  | _ + 1, [], _, acc => [acc.reverse]
  | fuel + 1, c :: rest, prev, acc =>
    if pyIsWs c && (prev.map (fun p => p = '.' || p = '!' || p = '?')).getD false then
      let run := (c :: rest).takeWhile pyIsWs
      acc.reverse :: ragSplitGo fuel ((c :: rest).drop run.length) run.getLast? []
    else if c = '\n' then
      let run := (c :: rest).takeWhile (fun x => x = '\n')
      acc.reverse :: ragSplitGo fuel ((c :: rest).drop run.length) (some '\n') []
    else if c = ';' && (rest.head?.map pyIsWs).getD false then
      let run := rest.takeWhile pyIsWs
      acc.reverse :: ragSplitGo fuel (rest.drop run.length) run.getLast? []
    else ragSplitGo fuel rest (some c) (c :: acc)

def rag_split_sentences (text : List Char) : List (List Char) :=
  (ragSplitGo (text.length + 1) text none []).filterMap (fun p =>
    if p.isEmpty then none
    else
      let ps := pyStrip p
      if 2 < ps.length then some ps else none)

def policy_terms : List String :=
  ["currency", "conversion", "unwithdrawn", "withdrawn", "loan", "amount",
   "approved currency", "variable spread", "minimum", "maximum"]

def score_sentence (s : List Char) : ℚ :=
  (policy_terms.foldl (fun acc t => if containsSub t.data (lowerChars s) then acc + 1 else acc)
    (0 : ℚ)) + min ((s.length : ℚ) / 200) 1

/-- Dedup (by lowercased text, first wins) and cap at five. -/
def policyDedup : List (ℚ × List Char) → List (List Char) → List (List Char)
  | [], acc => acc
  | (_, s) :: rest, acc =>
    if acc.any (fun x => lowerChars x = lowerChars s) then policyDedup rest acc
    else
      let acc' := acc ++ [s]
      if 5 ≤ acc'.length then acc' else policyDedup rest acc'

def extract_policy_answer (ctxs : List String) : List String :=
  let scored := ctxs.foldl (fun acc c =>
    acc ++ (rag_split_sentences c.data).filterMap (fun s =>
      let sc := score_sentence s
      if 0 < sc then some (sc, s) else none)) []
  let sorted := List.insertionSort (fun a b : ℚ × List Char => b.1 ≤ a.1) scored
  (policyDedup sorted []).map (fun s => (⟨s⟩ : String))

def is_policy_query (ql : List Char) : Bool :=
  (["policy", "policies", "guideline", "rules"].any (fun t => containsSub t.data ql)) &&
  (["currency", "conversion", "unwithdrawn", "withdrawn"].any (fun t => containsSub t.data ql))

/-- The cache key `RAGService.answer` builds:
`f"rag:answer:{tenant_id}:{hash(query)}"` (the randomized Python string hash
is an opaque integer input here). -/
def cache_key_str (tenant_id : String) (qh : Int) : String :=
  "rag:answer:" ++ tenant_id ++ ":" ++ toString qh

/-- `RedisCache.set_tenant_key` / `get_tenant_key` key shape:
`f"tenant:{tenant_id}:{key}"`. -/
def redis_key (tenant : String) (k : String) : String :=
  "tenant:" ++ tenant ++ ":" ++ k

def chapter_count_trigger (ql : List Char) : Bool :=
  ["how many chapters", "number of chapters", "chapters are there"].any
    (fun t => containsSub t.data ql)

def count_nums (ps : List (Option Int × Option String)) : List Int :=
  ps.foldl (fun acc p =>
    match p.1 with
    | some n => if acc.contains n then acc else acc ++ [n]
    | none => acc) []

def count_titles (ps : List (Option Int × Option String)) : List String :=
  ps.foldl (fun acc p =>
    match p.2 with
    | some t => if (!t.isEmpty) && !acc.contains t then acc ++ [t] else acc
    | none => acc) []

def chapters_map_of (ps : List (Option Int × Option String)) : List (Int × String) :=
  ps.foldl (fun acc p =>
    match p.1, p.2 with
    | some n, some t => if (!t.isEmpty) && acc.all (fun x => x.1 ≠ n) then acc ++ [(n, t)] else acc
    | _, _ => acc) []

/-- `re.search(r"\b(\d{1,3})\b", ql)` for the desired chapter-title count. -/
def scanBoundedNum : Option Char → List Char → Option Nat
  | _, [] => none
  | prev, c :: rest =>
    if !((prev.map isWordChar).getD false) && c.isDigit then
      let ds := (c :: rest).takeWhile (fun x => x.isDigit)
      if ds.length ≤ 3 && !(((c :: rest).drop ds.length).head?.map isWordChar).getD false then
        some (digitsToNat ds)
      else scanBoundedNum (some c) rest
    else scanBoundedNum (some c) rest

def desired_n (ql : List Char) : Option Nat :=
  (scanBoundedNum none ql).map (fun n => max 1 n)

def count_response (n : Nat) (conf : ℚ) : QueryResponse :=
  ⟨"There are at least " ++ toString n ++ " chapters indexed from the uploaded documents.",
   [], conf, false⟩

/-- The SQL fallback of the chapter-count branch (`db is not None`). -/
def answer_count_sql (dbMetas : Option (List (Option Int × Option String))) :
    Option QueryResponse :=
  match dbMetas with
  | some ms =>
    let nums := count_nums ms
    let titles := count_titles ms
    if (!nums.isEmpty) || !titles.isEmpty then
      some (count_response (if !nums.isEmpty then nums.length else titles.length) (13/20))
    else none
  | none => none

/-- The chapter-count branch; `qdrantChapters = none` models the vector-store
call raising (caught with `pass`). -/
def answer_count_step (ql : List Char)
    (qdrantChapters dbMetas : Option (List (Option Int × Option String))) :
    Option QueryResponse :=
  if chapter_count_trigger ql then
    match qdrantChapters with
    | some ps =>
      let nums := count_nums ps
      let titles := count_titles ps
      if (!nums.isEmpty) || !titles.isEmpty then
        some (count_response (if !nums.isEmpty then nums.length else titles.length) (7/10))
      else answer_count_sql dbMetas
    | none => answer_count_sql dbMetas
  else none

/-- The chapter-titles branch (its whole body is inside one `try`, so a
raising vector-store call skips the SQL fallback too). -/
def answer_titles_step (ql : List Char)
    (qdrantChapters dbMetas : Option (List (Option Int × Option String))) :
    Option QueryResponse :=
  if containsSub "chapter".data ql &&
      (containsSub "title".data ql || containsSub "titles".data ql ||
        containsSub "list".data ql) then
    match qdrantChapters with
    | none => none
    | some ps =>
      let m0 := chapters_map_of ps
      let m := if m0.isEmpty then
          (match dbMetas with
           | some ms => chapters_map_of ms
           | none => m0)
        else m0
      if m.isEmpty then none
      else
        let ordered0 := List.insertionSort (fun a b : Int × String => a.1 ≤ b.1) m
        let ordered1 := match desired_n ql with
          | some dn => ordered0.take dn
          | none => ordered0
        let ordered := ordered1.take 20
        some ⟨String.intercalate "\n"
                (ordered.map (fun p => "- Chapter " ++ toString p.1 ++ ": " ++ p.2)),
              [], 3/4, false⟩
  else none

/-- The generic tail without a generator: the answer is the first reranked
context truncated to 300 characters. -/
def answer_generic (tenant_id ck : String) (contexts2 : List String) :
    QueryResponse × List (String × QueryResponse) :=
  let generated : String := ⟨(contexts2.headD "").data.take 300⟩
  let citations := (contexts2.take 6).enum.map (fun p =>
    (⟨"chunk_" ++ toString p.1, "Context " ++ toString (p.1 + 1), 4/5,
      ⟨p.2.data.take 160⟩⟩ : Citation))
  let result : QueryResponse :=
    ⟨generated, citations,
     if (!contexts2.isEmpty) && (generated ≠ "") then 9/10 else 2/5,
     contexts2.isEmpty⟩
  (result, [(redis_key tenant_id ck, result)])

/-- `RAGService.answer` with preselected contexts and no OpenAI client
configured (the planner, reranker, query expansion, vector augmentation and
chapter-summary generation are then inert).  Returns the result and the cache
writes in order; note the policy-summary shortcut stores under tenant
`"global"` while every other path stores under `tenant_id`, the tenant whose
key the lookup at the top consulted. -/
def answer_model (q : String) (contexts0 : List String) (tenant_id : String) (qh : Int)
    (cached : Option QueryResponse)
    (qdrantChapters dbMetas : Option (List (Option Int × Option String))) :
    QueryResponse × List (String × QueryResponse) :=
  let ck := cache_key_str tenant_id qh
  match (match cached with
         | some r => if r.response ≠ "" then some r else none
         | none => none) with
  | some r => (r, [])
  | none =>
    let ql := lowerChars q.data
    let top_sents := extract_policy_answer contexts0
    if (!contexts0.isEmpty) && is_policy_query ql && !top_sents.isEmpty then
      let citations := (contexts0.take 3).enum.map (fun p =>
        (⟨"doc_" ++ toString p.1, "Document " ++ toString p.1, 9/10 - (p.1 : ℚ)/10,
          ⟨p.2.data.take 160⟩⟩ : Citation))
      let result : QueryResponse :=
        ⟨"Policy summary:\n" ++ ("\n- " ++ String.intercalate "\n- " top_sents),
         citations, 17/20, false⟩
      (result, [(redis_key "global" ck, result)])
    else
      let contexts2 := contexts0.take 12
      if contexts2.isEmpty then
        let result : QueryResponse :=
          ⟨"I don’t have that information in the current database.", [], 0, true⟩
        (result, [(redis_key tenant_id ck, result)])
      else
        match answer_count_step ql qdrantChapters dbMetas with
        | some r => (r, [(redis_key tenant_id ck, r)])
        | none =>
          match answer_titles_step ql qdrantChapters dbMetas with
          | some r => (r, [(redis_key tenant_id ck, r)])
          | none => answer_generic tenant_id ck contexts2

-- Reciprocal-rank fusion (rag_service.py HybridRetriever.rrf_fuse) -----------

/-- Candidate order of the `ranks` dict: first occurrence across the input
lists (fuel: one element is consumed per step). -/
def pyDedupFuel : Nat → List Nat → List Nat
  | 0, _ => []
  | _ + 1, [] => []
  | fuel + 1, a :: l => a :: pyDedupFuel fuel (l.filter (fun b => b ≠ a))

def pyDedup (l : List Nat) : List Nat := pyDedupFuel (l.length + 1) l

/-- One input list's additions to `ranks[d]`:
`for rank, doc_id in enumerate(idx_list, start=1): ranks[doc_id] += 1/(k+rank)`
(`r` is the 0-based position already consumed). -/
def rrf_contrib (k : Nat) : List Nat → Nat → Nat → ℚ
  | [], _, _ => 0
  | x :: rest, d, r =>
    (if x = d then (1 : ℚ) / ((k : ℚ) + (r : ℚ) + 1) else 0) + rrf_contrib k rest d (r + 1)

/-- The fused score of candidate `d`. -/
def rrf_score (lists : List (List Nat)) (k : Nat) (d : Nat) : ℚ :=
  (lists.map (fun l => rrf_contrib k l d 0)).sum

def rrf_le (lists : List (List Nat)) (k : Nat) (a b : Nat) : Prop :=
  rrf_score lists k b ≤ rrf_score lists k a

instance rrf_le_decidable (lists : List (List Nat)) (k : Nat) :
    DecidableRel (rrf_le lists k) :=
  fun a b => inferInstanceAs (Decidable (rrf_score lists k b ≤ rrf_score lists k a))

instance rrf_le_total (lists : List (List Nat)) (k : Nat) :
    IsTotal Nat (rrf_le lists k) :=
  ⟨fun _ _ => le_total _ _⟩

instance rrf_le_trans (lists : List (List Nat)) (k : Nat) :
    IsTrans Nat (rrf_le lists k) :=
  ⟨fun _ _ _ h1 h2 => le_trans h2 h1⟩

/-- `rrf_fuse` of rag_service.py: candidates in first-touch order, stably
sorted by score descending (Python's sort is stable; so is insertion sort
with the same comparator, hence the same output), truncated to `top_k`. -/
def rrf_fuse (lists : List (List Nat)) (k : Nat) (top_k : Nat) : List Nat :=
  (List.insertionSort (rrf_le lists k) (pyDedup lists.flatten)).take top_k

-- Sanity checks of the embedding on concrete inputs ------------------------

example : parse_csv_row "\"Akinkuolie, Sarah\",Engineering,95000,John Smith,Active" =
    some ["Akinkuolie, Sarah", "Engineering", "95000", "John Smith", "Active"] := by decide

example : parse_csv_row "" = none := by decide

example :
    extract_rows_from_file
        "Employee_Name,Department,Salary,Manager,Status\n\"Akinkuolie, Sarah\",Engineering,95000,John Smith,Active" =
      ["Employee_Name,Department,Salary,Manager,Status\x0d",
       "\"Akinkuolie, Sarah\",Engineering,95000,John Smith,Active\x0d"] := by decide

example : norm_name "  Akinkuolie,   Sarah ".data = "akinkuolie, sarah".data := by decide

example : norm_col " Employee_Name ".data = "employee_name".data := by decide

example : name_variants "Akinkuolie, Sarah".data =
    ["akinkuolie, sarah".data, "sarah akinkuolie".data] := by decide

example : looks_like_person "Akinkuolie, Sarah".data = true := by decide

example : looks_like_person "project management".data = false := by decide

example : groupDigits 95000 = "95,000" := by decide

example : person_candidate "What is the salary of Akinkuolie, Sarah?" =
    some "Akinkuolie, Sarah".data := by decide

example : detect_next_chapter_request (lowerChars "next chapter after chapter 2".data) =
    some 2 := by decide

example : detect_list_request (lowerChars "first 3 processes of project management".data) =
    some ⟨false, 3, some "project management"⟩ := by decide

example : detect_list_request (lowerChars "next 2".data) = some ⟨true, 2, none⟩ := by decide

example : detect_list_request (lowerChars "What is the salary of Akinkuolie, Sarah?".data) =
    none := by decide

example : detect_requested_field (lowerChars "What is the salary of Akinkuolie, Sarah?".data) =
    some "salary" := by decide

example : match_chapter_line "Chapter 3. Usage".data = some (3, "Usage".data) := by decide

example : extract_chapters ["Chapter 1. Intro\nChapter 2. Setup\nChapter 3. Usage"] =
    [(1, "Intro"), (2, "Setup"), (3, "Usage")] := by decide

example : extract_ordered_items ["- Initiating\n- Planning\n- Executing"] =
    ["Initiating", "Planning", "Executing"] := by decide

example : sensitive_hit "What is the ethnicity of Akinkuolie, Sarah?" = true := by decide

example : build_chunk_texts "Chapter 1. Intro\nChapter 2. Setup\nChapter 3. Usage" =
    ["Chapter 1. Intro Chapter 2. Setup Chapter 3. Usage"] := by decide

example : build_chunk_texts "" = [] := by decide

lemma mem_pyDedupFuel : ∀ (fuel : Nat) (l : List Nat) (x : Nat), l.length < fuel →
    (x ∈ pyDedupFuel fuel l ↔ x ∈ l) := by
  intro fuel
  induction fuel with
  | zero => intro l x h; omega
  | succ f ih =>
    intro l x h
    cases l with
    | nil => simp [pyDedupFuel]
    | cons a t =>
      have hlen : (t.filter (fun b => b ≠ a)).length < f := by
        have := List.length_filter_le (fun b => decide (b ≠ a)) t
        simp only [List.length_cons] at h
        omega
      simp only [pyDedupFuel, List.mem_cons, ih _ x hlen, List.mem_filter]
      constructor
      · rintro (rfl | ⟨hx, _⟩)
        · exact Or.inl rfl
        · exact Or.inr hx
      · rintro (rfl | hx)
        · exact Or.inl rfl
        · by_cases hxa : x = a
          · exact Or.inl hxa
          · exact Or.inr ⟨hx, by simpa using hxa⟩

lemma mem_pyDedup {l : List Nat} {x : Nat} : x ∈ pyDedup l ↔ x ∈ l :=
  mem_pyDedupFuel (l.length + 1) l x (Nat.lt_succ_self _)

lemma rrf_contrib_not_mem {k : Nat} {l : List Nat} {d : Nat} (h : d ∉ l) :
    ∀ r, rrf_contrib k l d r = 0 := by
  induction l with
  | nil => intro r; rfl
  | cons x rest ih =>
    intro r
    have hxd : x ≠ d := fun hx => h (hx ▸ List.mem_cons_self x rest)
    have hd : d ∉ rest := fun hx => h (List.mem_cons_of_mem _ hx)
    simp [rrf_contrib, hxd, ih hd]

lemma rrf_contrib_nodup {k : Nat} {l : List Nat} {d : Nat}
    (hnd : l.Nodup) (hm : d ∈ l) :
    ∀ r, rrf_contrib k l d r = (1 : ℚ) / ((k : ℚ) + ((l.indexOf d : ℚ) + r) + 1) := by
  induction l with
  | nil => cases hm
  | cons x rest ih =>
    intro r
    by_cases hxd : x = d
    · subst hxd
      have hrest : x ∉ rest := (List.nodup_cons.mp hnd).1
      simp [rrf_contrib, rrf_contrib_not_mem hrest, List.indexOf_cons_self]
    · have hm' : d ∈ rest := by
        rcases List.mem_cons.mp hm with h | h
        · exact absurd h.symm hxd
        · exact h
      have := ih (List.nodup_cons.mp hnd).2 hm' (r + 1)
      rw [List.indexOf_cons_ne _ hxd]
      simp only [rrf_contrib, if_neg hxd, zero_add, this]
      push_cast
      ring_nf

lemma one_div_pos_denom_lt {x y : ℚ} (hx : 0 < x) (hxy : x < y) :
    (1 : ℚ) / y < 1 / x := by
  exact one_div_lt_one_div_of_lt hx hxy

/-- Strict score monotonicity over the two-list fusion. -/
lemma rrf_score_strict {l1 l2 : List Nat} {a b : Nat} (h1 : l1.Nodup) (h2 : l2.Nodup)
    (ha1 : a ∈ l1) (hb1 : b ∈ l1) (ha2 : a ∈ l2) (hb2 : b ∈ l2)
    (r1 : l1.indexOf a < l1.indexOf b) (r2 : l2.indexOf a < l2.indexOf b) (k : Nat) :
    rrf_score [l1, l2] k b < rrf_score [l1, l2] k a := by
  have e1a := rrf_contrib_nodup (k := k) h1 ha1 0
  have e1b := rrf_contrib_nodup (k := k) h1 hb1 0
  have e2a := rrf_contrib_nodup (k := k) h2 ha2 0
  have e2b := rrf_contrib_nodup (k := k) h2 hb2 0
  simp only [rrf_score, List.map_cons, List.map_nil, List.sum_cons, List.sum_nil, add_zero,
    e1a, e1b, e2a, e2b]
  have p1 : (0 : ℚ) < (k : ℚ) + (((l1.indexOf a : Nat) : ℚ) + 0) + 1 := by positivity
  have p2 : (0 : ℚ) < (k : ℚ) + (((l2.indexOf a : Nat) : ℚ) + 0) + 1 := by positivity
  have q1 : ((k : ℚ) + (((l1.indexOf a : Nat) : ℚ) + 0) + 1) <
      ((k : ℚ) + (((l1.indexOf b : Nat) : ℚ) + 0) + 1) := by
    have : ((l1.indexOf a : Nat) : ℚ) < ((l1.indexOf b : Nat) : ℚ) := by exact_mod_cast r1
    linarith
  have q2 : ((k : ℚ) + (((l2.indexOf a : Nat) : ℚ) + 0) + 1) <
      ((k : ℚ) + (((l2.indexOf b : Nat) : ℚ) + 0) + 1) := by
    have : ((l2.indexOf a : Nat) : ℚ) < ((l2.indexOf b : Nat) : ℚ) := by exact_mod_cast r2
    linarith
  have hlt1 := one_div_pos_denom_lt p1 q1
  have hlt2 := one_div_pos_denom_lt p2 q2
  linarith

lemma indexOf_lt_of_mem_take {α : Type} [DecidableEq α] {x : α} :
    ∀ {l : List α} {n : Nat}, x ∈ l.take n → l.indexOf x < n := by
  intro l
  induction l with
  | nil => intro n h; simp at h
  | cons c t ih =>
    intro n h
    cases n with
    | zero => simp at h
    | succ m =>
      by_cases hxc : x = c
      · subst hxc; simp [List.indexOf_cons_self]
      · have : x ∈ t.take m := by
          rcases List.mem_cons.mp (by simpa using h) with h' | h'
          · exact absurd h' hxc
          · exact h'
        have := ih this
        rw [List.indexOf_cons_ne _ (fun hc => hxc hc.symm)]
        omega

lemma mem_take_of_indexOf_lt {α : Type} [DecidableEq α] {x : α} :
    ∀ {l : List α} {n : Nat}, x ∈ l → l.indexOf x < n → x ∈ l.take n := by
  intro l
  induction l with
  | nil => intro n h; simp at h
  | cons c t ih =>
    intro n hm hn
    by_cases hxc : x = c
    · subst hxc
      cases n with
      | zero => simp [List.indexOf_cons_self] at hn
      | succ m => simp
    · have hm' : x ∈ t := by
        rcases List.mem_cons.mp hm with h' | h'
        · exact absurd h' hxc
        · exact h'
      rw [List.indexOf_cons_ne _ (fun hc => hxc hc.symm)] at hn
      cases n with
      | zero => omega
      | succ m =>
        have hx : x ∈ t.take m := ih hm' (by omega)
        simp [hx]

lemma indexOf_take_eq {α : Type} [DecidableEq α] {x : α} :
    ∀ {l : List α} {n : Nat}, x ∈ l.take n → (l.take n).indexOf x = l.indexOf x := by
  intro l
  induction l with
  | nil => intro n h; simp at h
  | cons c t ih =>
    intro n h
    cases n with
    | zero => simp at h
    | succ m =>
      by_cases hxc : x = c
      · subst hxc; simp [List.indexOf_cons_self]
      · have h' : x ∈ t.take m := by
          rcases List.mem_cons.mp (by simpa using h) with h'' | h''
          · exact absurd h'' hxc
          · exact h''
        simp only [List.take_succ_cons]
        rw [List.indexOf_cons_ne _ (fun hc => hxc hc.symm),
          List.indexOf_cons_ne _ (fun hc => hxc hc.symm), ih h']

/-- In a descending-sorted list a strictly better score comes strictly
earlier. -/
lemma sorted_indexOf_lt {lists : List (List Nat)} {k : Nat} {S : List Nat} {a b : Nat}
    (hs : List.Sorted (rrf_le lists k) S) (ha : a ∈ S) (hb : b ∈ S)
    (hab : rrf_score lists k b < rrf_score lists k a) :
    S.indexOf a < S.indexOf b := by
  have hane : a ≠ b := by
    intro h; subst h; exact lt_irrefl _ hab
  have hia : S.indexOf a < S.length := List.indexOf_lt_length.mpr ha
  have hib : S.indexOf b < S.length := List.indexOf_lt_length.mpr hb
  by_contra hcon
  push_neg at hcon
  have hne : S.indexOf b ≠ S.indexOf a := by
    intro h
    exact hane ((List.indexOf_inj ha hb).mp h.symm)
  have hlt : S.indexOf b < S.indexOf a := lt_of_le_of_ne hcon hne
  have := List.Sorted.rel_get_of_lt hs (a := ⟨S.indexOf b, hib⟩) (b := ⟨S.indexOf a, hia⟩) hlt
  rw [List.indexOf_get, List.indexOf_get] at this
  exact absurd hab (not_lt.mpr this)

/-- C9 (RRF monotonicity): `rrf_fuse` scores each candidate by
`Σ 1/(60 + rank)` over its 1-based ranks in the input lists and sorts
descending, so a document ranked at least as high as another in both input
lists is ranked at least as high in the fused output (and is not cut off by
`top_k` unless the other is too). -/
theorem rrf_monotone (l1 l2 : List Nat) (a b : Nat) (top_k : Nat)
    (h1 : l1.Nodup) (h2 : l2.Nodup)
    (ha1 : a ∈ l1) (hb1 : b ∈ l1) (ha2 : a ∈ l2) (hb2 : b ∈ l2)
    (r1 : l1.indexOf a ≤ l1.indexOf b) (r2 : l2.indexOf a ≤ l2.indexOf b)
    (hbf : b ∈ rrf_fuse [l1, l2] 60 top_k) :
    a ∈ rrf_fuse [l1, l2] 60 top_k ∧
      (rrf_fuse [l1, l2] 60 top_k).indexOf a ≤ (rrf_fuse [l1, l2] 60 top_k).indexOf b := by
  by_cases hab : a = b
  · subst hab; exact ⟨hbf, le_refl _⟩
  · have hne1 : l1.indexOf a ≠ l1.indexOf b :=
      fun h => hab ((List.indexOf_inj ha1 hb1).mp h)
    have hne2 : l2.indexOf a ≠ l2.indexOf b :=
      fun h => hab ((List.indexOf_inj ha2 hb2).mp h)
    have hscore := rrf_score_strict h1 h2 ha1 hb1 ha2 hb2
      (lt_of_le_of_ne r1 hne1) (lt_of_le_of_ne r2 hne2) 60
    have hflat : ([l1, l2] : List (List Nat)).flatten = l1 ++ l2 := by simp
    have haK : a ∈ pyDedup ([l1, l2] : List (List Nat)).flatten := by
      rw [mem_pyDedup, hflat]
      exact List.mem_append.mpr (Or.inl ha1)
    have hbS : b ∈ List.insertionSort (rrf_le [l1, l2] 60) (pyDedup ([l1, l2] : List (List Nat)).flatten) :=
      List.take_subset _ _ hbf
    have haS : a ∈ List.insertionSort (rrf_le [l1, l2] 60) (pyDedup ([l1, l2] : List (List Nat)).flatten) :=
      ((List.perm_insertionSort _ _).mem_iff).mpr haK
    have hsorted : List.Sorted (rrf_le [l1, l2] 60)
        (List.insertionSort (rrf_le [l1, l2] 60) (pyDedup ([l1, l2] : List (List Nat)).flatten)) :=
      List.sorted_insertionSort _ _
    have hidx := sorted_indexOf_lt hsorted haS hbS hscore
    have hibS := indexOf_lt_of_mem_take hbf
    have haf : a ∈ rrf_fuse [l1, l2] 60 top_k :=
      mem_take_of_indexOf_lt haS (lt_trans hidx hibS)
    have e1 := indexOf_take_eq haf
    have e2 := indexOf_take_eq hbf
    refine ⟨haf, ?_⟩
    show ((List.insertionSort (rrf_le [l1, l2] 60)
        (pyDedup ([l1, l2] : List (List Nat)).flatten)).take top_k).indexOf a ≤
      ((List.insertionSort (rrf_le [l1, l2] 60)
        (pyDedup ([l1, l2] : List (List Nat)).flatten)).take top_k).indexOf b
    rw [e1, e2]
    exact le_of_lt hidx

lemma rrf_fuse_pair_eval : rrf_fuse [[0, 1], [0, 1]] 60 5 = [0, 1] := by
  norm_num [rrf_fuse, pyDedup, pyDedupFuel, List.insertionSort, List.orderedInsert,
    rrf_le, rrf_score, rrf_contrib, List.filter]

/-- Witness for C9 at the concrete lists `[0, 1]` and `[0, 1]`. -/
theorem rrf_monotone_witness :
    0 ∈ rrf_fuse [[0, 1], [0, 1]] 60 5 ∧
      (rrf_fuse [[0, 1], [0, 1]] 60 5).indexOf 0 ≤ (rrf_fuse [[0, 1], [0, 1]] 60 5).indexOf 1 :=
  rrf_monotone [0, 1] [0, 1] 0 1 5 (by decide) (by decide) (by decide) (by decide)
    (by decide) (by decide) (by decide) (by decide)
    (by rw [rrf_fuse_pair_eval]; decide)

/-- C1 (salary lookup end-to-end): after ingesting the CSV with header
`Employee_Name,Department,Salary,Manager,Status` and the row
`"Akinkuolie, Sarah",Engineering,95000,John Smith,Active`, the query
`What is the salary of Akinkuolie, Sarah?` answers exactly
`The salary of Akinkuolie, Sarah is $95,000.` with confidence ≥ 0.9,
`requiresHuman = false` and one citation whose snippet contains
`Akinkuolie, Sarah` — for every conversation context, retrieval result and
generator oracle. -/
theorem c1_salary_lookup :
    ∀ (ctx : ConvoCtx) (cands : List String) (gNp g : QueryResponse),
    post_query c1_query cands c1_corpus c1_cols ctx gNp g =
      Except.ok ⟨c1_expected_resp,
        [("USER", c1_query), ("SYSTEM", "The salary of Akinkuolie, Sarah is $95,000.")],
        {ctx with last_person := some "Akinkuolie, Sarah"}, true⟩ ∧
    c1_expected_resp.response = "The salary of Akinkuolie, Sarah is $95,000." ∧
    (9 : ℚ)/10 ≤ c1_expected_resp.confidence ∧
    c1_expected_resp.requiresHuman = false ∧
    c1_expected_resp.citations.length = 1 ∧
    ∀ cit ∈ c1_expected_resp.citations,
      containsSub "Akinkuolie, Sarah".data cit.snippet.data = true := by
  intro ctx cands gNp g
  refine ⟨rfl, rfl, le_refl _, rfl, rfl, ?_⟩
  intro cit hc
  rcases List.mem_singleton.mp hc with rfl
  rfl

/-- C2 (chapter navigation, failing behaviour): on the ingested chapter
document, any non-empty retrieval result makes the `next chapter after
chapter 2` branch raise `TypeError` — `top_texts = [corpus[i] for i in
candidates[:8]]` indexes the corpus list with the retrieved chunk strings —
instead of returning the chapter answer. -/
theorem c2_chapter_nav_crash :
    ∀ (cands : List String) (ctx : ConvoCtx) (gNp g : QueryResponse),
    cands ≠ [] →
    post_query c2_query cands c2_corpus c2_cols ctx gNp g = .error .typeError := by
  intro cands ctx gNp g h
  obtain ⟨c, cs, rfl⟩ := List.exists_cons_of_ne_nil h
  rfl

/-- Witness for C2 at a singleton candidate list. -/
theorem c2_chapter_nav_crash_witness :
    post_query c2_query ["x"] c2_corpus c2_cols emptyCtx dummy_response dummy_response =
      .error .typeError :=
  c2_chapter_nav_crash ["x"] emptyCtx dummy_response dummy_response (by decide)

/-- C8 (ordered-list continuation, failing behaviour): on the ingested bullet
document, any non-empty retrieval result makes the
`first 3 processes of project management` branch raise `TypeError` (the same
string-index slip as the chapter branch) instead of enumerating items 1-3. -/
theorem c8_list_crash :
    ∀ (cands : List String) (ctx : ConvoCtx) (gNp g : QueryResponse),
    cands ≠ [] →
    post_query c8_query cands c8_corpus c8_cols ctx gNp g = .error .typeError := by
  intro cands ctx gNp g h
  obtain ⟨c, cs, rfl⟩ := List.exists_cons_of_ne_nil h
  rfl

/-- Witness for C8 at a singleton candidate list. -/
theorem c8_list_crash_witness :
    post_query c8_query ["x"] c8_corpus c8_cols emptyCtx dummy_response dummy_response =
      .error .typeError :=
  c8_list_crash ["x"] emptyCtx dummy_response dummy_response (by decide)

/-- Counterexample to C3 as stated: ingesting empty content fails after the
document-creation commit, and the PROCESSING document row persists — partial
state survives the failure. -/
theorem c3_counterexample :
    process_and_store_db ⟨[], []⟩ "" true true =
      (⟨[⟨"PROCESSING", 0, none⟩], []⟩, Except.error PyError.valueError) ∧
    ([⟨"PROCESSING", 0, none⟩] : List DocRec) ≠ [] :=
  ⟨rfl, by decide⟩

/-- C3 amended (ingest frame): chunk inserts and document finalization commit
atomically — on any failure no chunk row persists and the result is an error —
but the document row committed at the start of the ingest survives the
rollback: after a failure past that commit, exactly a PROCESSING document row
with no chunks is left behind (for `process_rows_and_store`, failures before
the document commit leave the store unchanged).  The failure is re-raised,
not converted to a storage error. -/
theorem c3_ingest_frame :
    ∀ (db : IngestDB) (content : String) (rows : List String) (e c : Bool),
    (((process_and_store_db db content e c).2.isOk = false →
        (process_and_store_db db content e c).1.chunks = db.chunks ∧
        (process_and_store_db db content e c).1.docs = db.docs ++ [⟨"PROCESSING", 0, none⟩]) ∧
      (∀ d n, (process_and_store_db db content e c).2 = .ok (d, n) →
        (process_and_store_db db content e c).1.docs = db.docs ++ [⟨"INDEXED", n, none⟩] ∧
        (process_and_store_db db content e c).1.chunks =
          db.chunks ++ (build_chunk_texts content).map (fun t => (d, t)))) ∧
    (((process_rows_and_store_db db rows e c).2.isOk = false →
        (process_rows_and_store_db db rows e c).1.chunks = db.chunks ∧
        ((process_rows_and_store_db db rows e c).1.docs = db.docs ∨
          (process_rows_and_store_db db rows e c).1.docs =
            db.docs ++ [⟨"PROCESSING", 0, rows_columns rows⟩])) ∧
      (∀ d n, (process_rows_and_store_db db rows e c).2 = .ok (d, n) →
        (process_rows_and_store_db db rows e c).1.docs =
          db.docs ++ [⟨"INDEXED", (rows_data rows).length, rows_columns rows⟩] ∧
        (process_rows_and_store_db db rows e c).1.chunks =
          db.chunks ++ (rows_data rows).map (fun t => (d, t)) ∧ n = rows.length)) := by
  intro db content rows e c
  refine ⟨⟨?_, ?_⟩, ?_, ?_⟩
  · simp only [process_and_store_db]
    split_ifs with h1 h2 h3
    · intro _; exact ⟨rfl, rfl⟩
    · intro _; exact ⟨rfl, rfl⟩
    · intro _; exact ⟨rfl, rfl⟩
    · intro hfalse; simp [Except.isOk, Except.toBool] at hfalse
  · intro d n
    simp only [process_and_store_db]
    split_ifs with h1 h2 h3
    · intro h; simp at h
    · intro h; simp at h
    · intro h; simp at h
    · intro h
      obtain ⟨h1', h2'⟩ := Prod.mk.injEq _ _ _ _ ▸ Except.ok.inj h
      subst h1'; subst h2'
      exact ⟨rfl, rfl⟩
  · simp only [process_rows_and_store_db]
    split_ifs with h1 h2 h3 h4
    · intro _; exact ⟨rfl, Or.inl rfl⟩
    · intro _; exact ⟨rfl, Or.inl rfl⟩
    · intro _; exact ⟨rfl, Or.inr rfl⟩
    · intro _; exact ⟨rfl, Or.inr rfl⟩
    · intro hfalse; simp [Except.isOk, Except.toBool] at hfalse
  · intro d n
    simp only [process_rows_and_store_db]
    split_ifs with h1 h2 h3 h4
    · intro h; simp at h
    · intro h; simp at h
    · intro h; simp at h
    · intro h; simp at h
    · intro h
      obtain ⟨h1', h2'⟩ := Prod.mk.injEq _ _ _ _ ▸ Except.ok.inj h
      subst h1'; subst h2'
      exact ⟨rfl, rfl, rfl⟩

/-- C5 (refusal idempotence): any query containing one of the spec's
sensitive terms is refused with the fixed text, confidence 0 and
`requiresHuman = true`, whatever the retrieval state (corpus, columns,
context and oracles are universally quantified). -/
theorem c5_refusal_idempotent :
    ∀ (q : String) (cands corpus : List String) (cols : List (Option (List String)))
      (ctx : ConvoCtx) (gNp g : QueryResponse),
    (∃ t ∈ (["ethnicity", "race", "hispanic", "religion", "sexual orientation"] : List String),
        containsSub t.data (lowerChars q.data) = true) →
    post_query q cands corpus cols ctx gNp g = .ok ⟨refusal_response, [], ctx, false⟩ ∧
    refusal_response.confidence = 0 ∧ refusal_response.requiresHuman = true := by
  rintro q cands corpus cols ctx gNp g ⟨t, ht, hinf⟩
  have hs : sensitive_hit q = true := by
    simp only [sensitive_hit, List.any_eq_true]
    fin_cases ht
    · exact ⟨"ethnicity", by decide, hinf⟩
    · exact ⟨"race", by decide, hinf⟩
    · exact ⟨"hispanic", by decide, hinf⟩
    · exact ⟨"religion", by decide, hinf⟩
    · exact ⟨"sexual orientation", by decide, hinf⟩
  refine ⟨?_, rfl, rfl⟩
  simp [post_query, hs]

/-- Witness for C5 at the sensitive query of the spec's third scenario. -/
theorem c5_refusal_idempotent_witness :
    post_query c6_query ["x"] c1_corpus c1_cols emptyCtx dummy_response dummy_response =
      .ok ⟨refusal_response, [], emptyCtx, false⟩ ∧
    refusal_response.confidence = 0 ∧ refusal_response.requiresHuman = true :=
  c5_refusal_idempotent c6_query ["x"] c1_corpus c1_cols emptyCtx dummy_response
    dummy_response ⟨"ethnicity", by decide, by decide⟩

/-- Counterexample to C6 as stated: at the sensitive query the guard returns
before the conversation is touched, so the refusal is emitted with an empty
message log — not with the claimed single user-message append. -/
theorem c6_counterexample :
    post_query c6_query ["x"] c1_corpus c1_cols emptyCtx dummy_response dummy_response =
      .ok ⟨refusal_response, [], emptyCtx, false⟩ ∧
    ([] : List (String × String)) ≠ [("USER", c6_query)] :=
  ⟨rfl, by decide⟩

/-- C6 amended: when the sensitive-attribute guard triggers, the refusal is
emitted with no storage side effect at all — no conversation acquired or
created, no message appended (not even the user message) and the context
unchanged. -/
theorem c6_refusal_frame :
    ∀ (q : String) (cands corpus : List String) (cols : List (Option (List String)))
      (ctx : ConvoCtx) (gNp g : QueryResponse),
    sensitive_hit q = true →
    post_query q cands corpus cols ctx gNp g = .ok ⟨refusal_response, [], ctx, false⟩ := by
  intro q cands corpus cols ctx gNp g hs
  simp [post_query, hs]

/-- Witness for the amended C6 at the sensitive query. -/
theorem c6_refusal_frame_witness :
    post_query c6_query [] [] [] emptyCtx dummy_response dummy_response =
      .ok ⟨refusal_response, [], emptyCtx, false⟩ :=
  c6_refusal_frame c6_query [] [] [] emptyCtx dummy_response dummy_response (by decide)

lemma score_terms_nonneg (s : List Char) :
    ∀ (ts : List String) (acc : ℚ), 0 ≤ acc →
    0 ≤ ts.foldl (fun a t => if containsSub t.data (lowerChars s) then a + 1 else a) acc := by
  intro ts
  induction ts with
  | nil => intro acc h; simpa using h
  | cons t rest ih =>
    intro acc h
    simp only [List.foldl_cons]
    by_cases hc : containsSub t.data (lowerChars s) = true
    · rw [if_pos hc]; exact ih _ (by linarith)
    · rw [if_neg hc]; exact ih _ h

lemma score_sentence_pos (s : List Char) (h : s ≠ []) : 0 < score_sentence s := by
  have h1 : (0 : ℚ) ≤ policy_terms.foldl
      (fun a t => if containsSub t.data (lowerChars s) then a + 1 else a) 0 :=
    score_terms_nonneg s policy_terms 0 le_rfl
  have hlen : 0 < s.length := List.length_pos.mpr h
  have h2 : (0 : ℚ) < min ((s.length : ℚ) / 200) 1 := by
    refine lt_min ?_ (by norm_num)
    have : (0 : ℚ) < (s.length : ℚ) := by exact_mod_cast hlen
    positivity
  have : score_sentence s = policy_terms.foldl
      (fun a t => if containsSub t.data (lowerChars s) then a + 1 else a) 0 +
      min ((s.length : ℚ) / 200) 1 := rfl
  rw [this]
  linarith

lemma c4_policy_sents : extract_policy_answer c4_ctxs = c4_ctxs := by
  have hpos : (0 : ℚ) < score_sentence
      ("The unwithdrawn loan amount may be converted to an approved currency.".data) :=
    score_sentence_pos _ (by decide)
  have hsplit : rag_split_sentences
      ("The unwithdrawn loan amount may be converted to an approved currency.".data) =
      ["The unwithdrawn loan amount may be converted to an approved currency.".data] := rfl
  simp only [extract_policy_answer, c4_ctxs, List.foldl_cons, List.foldl_nil, hsplit,
    List.filterMap_cons, List.filterMap_nil, if_pos hpos, List.nil_append,
    List.insertionSort, List.orderedInsert, policyDedup, List.any_nil, Bool.false_eq_true,
    if_false, List.length_cons, List.length_nil, List.map_cons, List.map_nil]
  rfl

/-- Counterexample to C4 as stated: at the policy query the computed answer
is stored under tenant `"global"`, not under the tenant whose key the lookup
consulted. -/
theorem c4_counterexample :
    ((answer_model c4_query c4_ctxs "t1" 0 none none none).2.map (·.1)) =
      ["tenant:global:rag:answer:t1:0"] ∧
    ("tenant:global:rag:answer:t1:0" : String) ≠ redis_key "t1" (cache_key_str "t1" 0) := by
  constructor
  · have hcond : ((!c4_ctxs.isEmpty) && is_policy_query (lowerChars c4_query.data) &&
        !(extract_policy_answer c4_ctxs).isEmpty) = true := by
      rw [c4_policy_sents]; decide
    simp only [answer_model, hcond, if_true]
    rfl
  · decide

/-- Every cache write of `RAGService.answer` goes to the consulted tenant key
or (on the policy shortcut only) to the same key under tenant `"global"`. -/
lemma answer_model_writes (q : String) (ctxs : List String) (t : String) (qh : Int)
    (cached : Option QueryResponse) (qc dm : Option (List (Option Int × Option String))) :
    (answer_model q ctxs t qh cached qc dm).2 = [] ∨
    (∃ v, (answer_model q ctxs t qh cached qc dm).2 =
      [(redis_key t (cache_key_str t qh), v)]) ∨
    ((∃ v, (answer_model q ctxs t qh cached qc dm).2 =
        [(redis_key "global" (cache_key_str t qh), v)]) ∧
      is_policy_query (lowerChars q.data) = true) := by
  simp only [answer_model]
  rcases hhit : (match cached with
      | some r => if r.response ≠ "" then some r else none
      | none => none) with _ | r
  · rw [hhit]
    dsimp only
    by_cases hp : ((!ctxs.isEmpty) && is_policy_query (lowerChars q.data) &&
        !(extract_policy_answer ctxs).isEmpty) = true
    · simp only [hp, if_true]
      refine Or.inr (Or.inr ⟨⟨_, rfl⟩, ?_⟩)
      have := hp
      rw [Bool.and_eq_true, Bool.and_eq_true] at this
      exact this.1.2
    · rw [if_neg (by simpa using hp)]
      by_cases hc2 : (ctxs.take 12).isEmpty = true
      · simp only [hc2, if_true]
        exact Or.inr (Or.inl ⟨_, rfl⟩)
      · rw [if_neg (by simpa using hc2)]
        rcases hcount : answer_count_step (lowerChars q.data) qc dm with _ | r1
        · rcases htitles : answer_titles_step (lowerChars q.data) qc dm with _ | r2
          · exact Or.inr (Or.inl ⟨_, rfl⟩)
          · exact Or.inr (Or.inl ⟨_, rfl⟩)
        · exact Or.inr (Or.inl ⟨_, rfl⟩)
  · rw [hhit]
    exact Or.inl rfl

/-- C4 amended (cache scoping): the lookup key is
`tenant:{t}:rag:answer:{t}:{hash(q)}`; a hit returns the cached answer
unchanged with no writes; every miss path stores its result under that same
key, except the policy-summary shortcut which stores under
`tenant:global:rag:answer:{t}:{hash(q)}` — a key the lookup for tenant `t`
never consults. -/
theorem c4_cache_scoping :
    ∀ (q : String) (ctxs : List String) (t : String) (qh : Int)
      (cached : Option QueryResponse) (qc dm : Option (List (Option Int × Option String))),
    (∀ r, cached = some r → r.response ≠ "" →
        answer_model q ctxs t qh cached qc dm = (r, [])) ∧
    (∀ w ∈ (answer_model q ctxs t qh cached qc dm).2,
        w.1 = redis_key t (cache_key_str t qh) ∨
        w.1 = redis_key "global" (cache_key_str t qh)) ∧
    (is_policy_query (lowerChars q.data) = false →
      ∀ w ∈ (answer_model q ctxs t qh cached qc dm).2,
        w.1 = redis_key t (cache_key_str t qh)) := by
  intro q ctxs t qh cached qc dm
  refine ⟨?_, ?_, ?_⟩
  · rintro r rfl hr
    simp [answer_model, hr]
  · intro w hw
    rcases answer_model_writes q ctxs t qh cached qc dm with h | ⟨v, h⟩ | ⟨⟨v, h⟩, _⟩
    · rw [h] at hw; cases hw
    · rw [h] at hw
      rcases List.mem_singleton.mp hw with rfl
      exact Or.inl rfl
    · rw [h] at hw
      rcases List.mem_singleton.mp hw with rfl
      exact Or.inr rfl
  · intro hnp w hw
    rcases answer_model_writes q ctxs t qh cached qc dm with h | ⟨v, h⟩ | ⟨⟨v, h⟩, hpol⟩
    · rw [h] at hw; cases hw
    · rw [h] at hw
      rcases List.mem_singleton.mp hw with rfl
      rfl
    · rw [hpol] at hnp; cases hnp

lemma isPrefixOf_append_self : ∀ (n t : List Char), n.isPrefixOf (n ++ t) = true := by
  intro n
  induction n with
  | nil => intro t; simp [List.isPrefixOf]
  | cons a l ih => intro t; simp [List.isPrefixOf, ih]

lemma containsSub_here {n h : List Char} (hp : n.isPrefixOf h = true) :
    containsSub n h = true := by
  cases h with
  | nil =>
    cases n with
    | nil => rfl
    | cons a l => simp [List.isPrefixOf] at hp
  | cons c rest => simp [containsSub, hp]

lemma containsSub_cons {n rest : List Char} {c : Char} (h : containsSub n rest = true) :
    containsSub n (c :: rest) = true := by
  simp [containsSub, h]

lemma containsSub_append_left {n h : List Char} :
    ∀ (pre : List Char), containsSub n h = true → containsSub n (pre ++ h) = true := by
  intro pre
  induction pre with
  | nil => intro hh; simpa using hh
  | cons c l ih => intro hh; exact containsSub_cons (ih hh)

lemma containsSub_mid (pre n post : List Char) :
    containsSub n (pre ++ (n ++ post)) = true :=
  containsSub_append_left pre (containsSub_here (isPrefixOf_append_self n post))

lemma string_data_append (a b : String) : (a ++ b).data = a.data ++ b.data := rfl

/-- Routing: with the guard down, a non-empty corpus, no chapter or list
intent and a detected field, `post_query` is the tabular branch over the
normalized column metadata. -/
lemma post_query_tabular (q : String) (cands corpus : List String)
    (cols : List (Option (List String))) (ctx : ConvoCtx) (gNp g : QueryResponse)
    (fld : String)
    (hs : sensitive_hit q = false) (hc : corpus.isEmpty = false)
    (hch : detect_next_chapter_request (lowerChars q.data) = none)
    (hl : detect_list_request (lowerChars q.data) = none)
    (hf : detect_requested_field (lowerChars q.data) = some fld) :
    post_query q cands corpus cols ctx gNp g =
      tabular_branch q fld corpus (cols.map (Option.map (List.map norm_col_str))) ctx gNp := by
  simp [post_query, hs, hc, hch, hl, hf]

/-- C7 (unknown person / empty field): for a tabular field query that names a
person, when no row matches exactly the endpoint answers with confidence 0
and `requiresHuman = true`, mentioning the queried name and asking to verify
the name spelling; and when rows match but the requested field is blank in
all of them, it answers the fixed empty-field response with confidence 0 and
`requiresHuman = true` — in both cases independent of the generic-RAG oracles
(no fallback to generic RAG). -/
theorem c7_unknown_person_and_empty_field :
    ∀ (q : String) (fld : String) (c : List Char) (cands corpus : List String)
      (cols : List (Option (List String))) (ctx : ConvoCtx) (gNp g : QueryResponse),
    sensitive_hit q = false →
    corpus.isEmpty = false →
    detect_next_chapter_request (lowerChars q.data) = none →
    detect_list_request (lowerChars q.data) = none →
    detect_requested_field (lowerChars q.data) = some fld →
    person_candidate q = some c →
    c.isEmpty = false →
    looks_like_person c = true →
    ((find_matching_rows corpus (cols.map (Option.map (List.map norm_col_str)))
        (name_variants (person_name_clean c)) = .ok [] →
      post_query q cands corpus cols ctx gNp g =
        .ok ⟨⟨"I couldn't find any records for " ++ (⟨person_name_clean c⟩ : String) ++
              ". Please verify the name spelling or check if this person exists in the employee database.",
             [], 0, true⟩,
           [("USER", q),
            ("SYSTEM", "I couldn't find any records for " ++ (⟨person_name_clean c⟩ : String) ++
              ". Please verify the name spelling or check if this person exists in the employee database.")],
           ctx, true⟩ ∧
      containsSub (person_name_clean c)
        ("I couldn't find any records for " ++ (⟨person_name_clean c⟩ : String) ++
          ". Please verify the name spelling or check if this person exists in the employee database.").data = true ∧
      containsSub "verify the name spelling".data
        ("I couldn't find any records for " ++ (⟨person_name_clean c⟩ : String) ++
          ". Please verify the name spelling or check if this person exists in the employee database.").data = true) ∧
     (∀ m ms,
       find_matching_rows corpus (cols.map (Option.map (List.map norm_col_str)))
         (name_variants (person_name_clean c)) = .ok (m :: ms) →
       extract_best fld (m :: ms) = none →
       post_query q cands corpus cols ctx gNp g =
         .ok ⟨⟨"I found " ++ (⟨person_name_clean c⟩ : String) ++ " in the database, but their " ++
               field_display_lower fld ++ " information is not available or empty in the records.",
              [], 0, true⟩,
            [("USER", q),
             ("SYSTEM", "I found " ++ (⟨person_name_clean c⟩ : String) ++ " in the database, but their " ++
               field_display_lower fld ++ " information is not available or empty in the records.")],
            ctx, true⟩)) := by
  intro q fld c cands corpus cols ctx gNp g hs hc hch hl hf hp hce hlp
  have hroute := post_query_tabular q cands corpus cols ctx gNp g fld hs hc hch hl hf
  constructor
  · intro hmatch
    refine ⟨?_, ?_, ?_⟩
    · rw [hroute]
      simp [tabular_branch, hp, hce, hlp, hmatch]
    · rw [show ("I couldn't find any records for " ++ (⟨person_name_clean c⟩ : String) ++
          ". Please verify the name spelling or check if this person exists in the employee database.").data =
          "I couldn't find any records for ".data ++ (person_name_clean c ++
            ". Please verify the name spelling or check if this person exists in the employee database.".data) by
        simp [string_data_append, List.append_assoc]]
      exact containsSub_mid _ _ _
    · rw [show ("I couldn't find any records for " ++ (⟨person_name_clean c⟩ : String) ++
          ". Please verify the name spelling or check if this person exists in the employee database.").data =
          ("I couldn't find any records for ".data ++ person_name_clean c) ++
            ". Please verify the name spelling or check if this person exists in the employee database.".data by
        simp [string_data_append]]
      exact containsSub_append_left _ (by decide)
  · intro m ms hmatch hbest
    rw [hroute]
    simp [tabular_branch, hp, hce, hlp, hmatch, hbest]

/-- Witness for C7: both branches at concrete inputs — the spec's
unknown-person scenario over the C1 ingest, instantiated at the query
`What is the salary of Jones, Pat?`. -/
theorem c7_unknown_person_witness :
    ((find_matching_rows c1_corpus (c1_cols.map (Option.map (List.map norm_col_str)))
        (name_variants (person_name_clean "Jones, Pat".data)) = .ok [] →
      post_query c7_query ["x"] c1_corpus c1_cols emptyCtx dummy_response dummy_response =
        .ok ⟨⟨"I couldn't find any records for " ++ (⟨person_name_clean "Jones, Pat".data⟩ : String) ++
              ". Please verify the name spelling or check if this person exists in the employee database.",
             [], 0, true⟩,
           [("USER", c7_query),
            ("SYSTEM", "I couldn't find any records for " ++ (⟨person_name_clean "Jones, Pat".data⟩ : String) ++
              ". Please verify the name spelling or check if this person exists in the employee database.")],
           emptyCtx, true⟩ ∧
      containsSub (person_name_clean "Jones, Pat".data)
        ("I couldn't find any records for " ++ (⟨person_name_clean "Jones, Pat".data⟩ : String) ++
          ". Please verify the name spelling or check if this person exists in the employee database.").data = true ∧
      containsSub "verify the name spelling".data
        ("I couldn't find any records for " ++ (⟨person_name_clean "Jones, Pat".data⟩ : String) ++
          ". Please verify the name spelling or check if this person exists in the employee database.").data = true) ∧
     (∀ m ms,
       find_matching_rows c1_corpus (c1_cols.map (Option.map (List.map norm_col_str)))
         (name_variants (person_name_clean "Jones, Pat".data)) = .ok (m :: ms) →
       extract_best "salary" (m :: ms) = none →
       post_query c7_query ["x"] c1_corpus c1_cols emptyCtx dummy_response dummy_response =
         .ok ⟨⟨"I found " ++ (⟨person_name_clean "Jones, Pat".data⟩ : String) ++ " in the database, but their " ++
               field_display_lower "salary" ++ " information is not available or empty in the records.",
              [], 0, true⟩,
            [("USER", c7_query),
             ("SYSTEM", "I found " ++ (⟨person_name_clean "Jones, Pat".data⟩ : String) ++ " in the database, but their " ++
               field_display_lower "salary" ++ " information is not available or empty in the records.")],
            emptyCtx, true⟩)) :=
  c7_unknown_person_and_empty_field c7_query "salary" "Jones, Pat".data ["x"] c1_corpus
    c1_cols emptyCtx dummy_response dummy_response (by decide) (by decide) (by decide)
    (by decide) (by decide) (by decide) (by decide) (by decide)

/-- C10 (tabular ingest chunk count): whenever the first row parses as a
header and a data row exists, `process_rows_and_store` returns `len(rows)` —
the row count including the header — while storing and finalizing
`len(rows) - 1` chunks; the returned count is one more than the persisted
`chunk_count`. -/
theorem c10_chunk_count :
    ∀ (db : IngestDB) (rows : List String),
    2 ≤ rows.length →
    (parse_csv_row (rows.headD "")).isSome = true →
    (process_rows_and_store_db db rows true true).2 = .ok (db.docs.length, rows.length) ∧
    (process_rows_and_store_db db rows true true).1.chunks.length =
      db.chunks.length + (rows.length - 1) ∧
    (process_rows_and_store_db db rows true true).1.docs =
      db.docs ++ [⟨"INDEXED", rows.length - 1, rows_columns rows⟩] ∧
    rows.length = (rows.length - 1) + 1 := by
  intro db rows hlen hhdr
  rcases rows with _ | ⟨r0, t⟩
  · simp at hlen
  · rcases t with _ | ⟨r1, t'⟩
    · simp at hlen
    · obtain ⟨hd, hh⟩ := Option.isSome_iff_exists.mp hhdr
      have hh' : parse_csv_row r0 = some hd := hh
      have hdata : rows_data (r0 :: r1 :: t') = r1 :: t' := by
        simp [rows_data, hh']
      refine ⟨?_, ?_, ?_, ?_⟩
      · simp [process_rows_and_store_db, hdata]
      · simp [process_rows_and_store_db, hdata]
      · simp [process_rows_and_store_db, hdata]
      · omega

/-- Witness for C10 at a two-row CSV. -/
theorem c10_chunk_count_witness :
    (process_rows_and_store_db ⟨[], []⟩ ["a,b", "1,2"] true true).2 = .ok (0, 2) ∧
    (process_rows_and_store_db ⟨[], []⟩ ["a,b", "1,2"] true true).1.chunks.length = 0 + (2 - 1) ∧
    (process_rows_and_store_db ⟨[], []⟩ ["a,b", "1,2"] true true).1.docs =
      [⟨"INDEXED", 2 - 1, rows_columns ["a,b", "1,2"]⟩] ∧
    2 = (2 - 1) + 1 := by
  have h := c10_chunk_count ⟨[], []⟩ ["a,b", "1,2"] (by decide) (by decide)
  simpa using h
